import Mathlib

set_option maxHeartbeats 3200000
set_option maxRecDepth 8000

/-!
Verification of the tile streaming and compositing engine of the repository
(src/services/yandexMapService.ts), against its natural-language specification.

The TypeScript source is shallowly embedded as follows.

* `tileToGeo` (lines 12-22) is a pure function on JavaScript numbers using
  `Math.atan`, `Math.sinh`, `Math.PI`; it is embedded over `ℝ`.
* The `TileManager` class is embedded as a state machine.  Its mutable fields
  (`tilesLoaded`, `activeRequests`, `queue`, `isDestroyed`, the canvas, and the
  number of `onTextureUpdate` calls) form the record `MState`.  The pending
  promises created by `loadImage` are part of the runtime state of the program;
  they are modelled by the multiset `inFlight` of requests whose completion
  handlers have not yet run.  Each promise settles exactly once, so a
  completion event consumes one element of `inFlight`.
* Scheduler arithmetic (`update`, lines 118-168) uses only field operations,
  `Math.abs` and `Math.floor` on JavaScript numbers; all values involved are
  exactly representable, and the arithmetic is embedded over `ℚ`.
* The canvas is modelled as the list of drawing operations performed on it,
  starting with the constructor's background fill; `ctx.drawImage` appends a
  record of its eight source/destination arguments.
* `queue.sort((a, b) => a.dist - b.dist)` is ECMAScript `Array.prototype.sort`,
  which is required to be stable; it is embedded as the stable insertion sort
  `List.insertionSort` by `dist`.
* The request URL built by `getYandexStaticUrl` is a pure function of the tile
  coordinates, zoom and map type; no claim concerns its text, and completion
  events identify fetches by their `TileRequest`, so the URL string itself is
  not modelled.
* `loadBaseLayer` (lines 85-115) creates one promise per base-zoom tile; only
  its completion handlers touch the state, so they are modelled as events
  (`baseTileSuccess`, `baseTileFailure`).
-/

namespace YandexMap

/-- `const TILE_SIZE = 256` (line 3). -/
def TILE_SIZE : ℕ := 256

/-- `const MAX_CONCURRENT_REQUESTS = 4` (line 4). -/
def MAX_CONCURRENT_REQUESTS : ℕ := 4

/-- `const REQUEST_SIZE = 450` (line 8). -/
def REQUEST_SIZE : ℕ := 450

/-- `const CROP_OFFSET = (REQUEST_SIZE - TILE_SIZE) / 2` (line 9), = 97. -/
def CROP_OFFSET : ℕ := (REQUEST_SIZE - TILE_SIZE) / 2

/-- `readonly targetZoom = 3` (line 52). -/
def targetZoom : ℕ := 3

/-- `readonly baseZoom = 2` (line 53). -/
def baseZoom : ℕ := 2

/-- `this.numTilesX = Math.pow(2, this.targetZoom)` (line 67), = 8. -/
def numTilesX : ℕ := 2 ^ targetZoom

/-- `interface GeoCoordinate` (src/types.ts). -/
structure GeoCoordinate where
  lat : ℝ
  lon : ℝ

/-- `tileToGeo` (lines 12-22): geographic coordinate of the center of tile
`(x, y)` at zoom `z`. -/
noncomputable def tileToGeo (x y z : ℕ) : GeoCoordinate :=
  let n : ℝ := 2 ^ z
  let centerX : ℝ := (x : ℝ) + 0.5
  let centerY : ℝ := (y : ℝ) + 0.5
  let centerLonDeg : ℝ := centerX / n * 360 - 180
  let centerLatRad : ℝ := Real.arctan (Real.sinh (Real.pi * (1 - 2 * centerY / n)))
  let centerLatDeg : ℝ := centerLatRad * 180 / Real.pi
  { lat := centerLatDeg, lon := centerLonDeg }

/-- `interface TileRequest` (lines 40-45).  The `url` field is a pure function
of `(x, y)` and fixed configuration, and is not modelled (see header). -/
structure TileRequest where
  x : ℕ
  y : ℕ
  dist : ℚ
deriving DecidableEq

/-- One drawing operation on the canvas: the constructor's background fill
(lines 80-81) or a `ctx.drawImage(img, sx, sy, sw, sh, dx, dy, dw, dh)`. -/
inductive DrawOp where
  | backgroundFill (x y w h : ℕ) : DrawOp
  | drawImage (sx sy sw sh dx dy dw dh : ℕ) : DrawOp
deriving DecidableEq

/-- The draw performed by a successful target-zoom tile fetch (lines 184-188). -/
def tileDrawOp (x y : ℕ) : DrawOp :=
  DrawOp.drawImage CROP_OFFSET CROP_OFFSET TILE_SIZE TILE_SIZE
    (x * TILE_SIZE) (y * TILE_SIZE) TILE_SIZE TILE_SIZE

/-- `const drawSize = TILE_SIZE * scale` with
`scale = 2 ^ (targetZoom - baseZoom)` (lines 87-88). -/
def baseDrawSize : ℕ := TILE_SIZE * 2 ^ (targetZoom - baseZoom)

/-- The draw performed by a successful base-layer tile fetch (lines 101-105). -/
def baseDrawOp (x y : ℕ) : DrawOp :=
  DrawOp.drawImage CROP_OFFSET CROP_OFFSET TILE_SIZE TILE_SIZE
    (x * baseDrawSize) (y * baseDrawSize) baseDrawSize baseDrawSize

/-- The mutable state of a `TileManager` instance, together with the multiset
`inFlight` of dispatched fetches whose handlers have not yet run. -/
structure MState where
  tilesLoaded : List Bool
  activeRequests : ℕ
  queue : List TileRequest
  inFlight : List TileRequest
  isDestroyed : Bool
  buffer : List DrawOp
  notifications : ℕ
deriving DecidableEq

/-- State after the constructor (lines 64-82): all 64 slots unloaded, no
requests, background fill drawn. -/
def initState : MState where
  tilesLoaded := List.replicate (numTilesX * numTilesX) false
  activeRequests := 0
  queue := []
  inFlight := []
  isDestroyed := false
  buffer := [DrawOp.backgroundFill 0 0 (numTilesX * TILE_SIZE) (numTilesX * TILE_SIZE)]
  notifications := 0

/-- Lines 142-145: `distBoxX = Math.abs(x - centerX)`, wrapped to the short way
around when it exceeds half the grid. -/
def wrapDist (c : ℚ) (x : ℕ) : ℚ :=
  let d := |(x : ℚ) - c|
  if d > (numTilesX : ℚ) / 2 then (numTilesX : ℚ) - d else d

/-- Line 148: `distBoxY = Math.abs(y - (numTilesX / 2) - 0.5)`. -/
def distY (y : ℕ) : ℚ := |(y : ℚ) - (numTilesX : ℚ) / 2 - 0.5|

/-- One iteration of the scan in `update` (lines 131-161) for slot `(x, y)`:
skip if loaded, skip if already in the queue, otherwise compute the weighted
distance and push the request if `distBoxX < numTilesX / 2 + 1`. -/
def considerSlot (c : ℚ) (loaded : List Bool) (q : List TileRequest) (x y : ℕ) :
    List TileRequest :=
  let index := y * numTilesX + x
  if loaded.getD index false then q
  else if q.any fun item => item.x == x && item.y == y then q
  else
    let distBoxX := wrapDist c x
    let distBoxY := distY y
    let dist := distBoxX + distBoxY * 0.5
    if distBoxX < (numTilesX : ℚ) / 2 + 1 then q ++ [⟨x, y, dist⟩] else q

/-- The iteration order of the nested loops in lines 131-132: `y` outer,
`x` inner. -/
def allSlots : List (ℕ × ℕ) :=
  (List.range numTilesX).flatMap fun y => (List.range numTilesX).map fun x => (x, y)

/-- Step 2 of `update` (lines 130-161): scan all slots, appending requests for
missing ones to the queue. -/
def scan (c : ℚ) (loaded : List Bool) (q : List TileRequest) : List TileRequest :=
  allSlots.foldl (fun acc p => considerSlot c loaded acc p.1 p.2) q

/-- Step 1 of `update` (lines 121-128): fractional center tile index from the
viewpoint longitude. -/
def centerXOf (lon : ℚ) : ℚ :=
  let normalizedLon0 := (lon + 180) / 360
  let normalizedLon := normalizedLon0 - ⌊normalizedLon0⌋
  normalizedLon * (numTilesX : ℚ)

/-- The comparator of `this.queue.sort((a, b) => a.dist - b.dist)` (line 164). -/
def distLE (a b : TileRequest) : Prop := a.dist ≤ b.dist

instance : DecidableRel distLE := fun a b => inferInstanceAs (Decidable (a.dist ≤ b.dist))

/-- Steps 1-3 of `update` (lines 121-164): compute `centerX`, scan for missing
tiles, and stable-sort the queue by distance. -/
def recompute (lon : ℚ) (s : MState) : MState :=
  { s with
      queue := List.insertionSort distLE (scan (centerXOf lon) s.tilesLoaded s.queue) }

/-- The `while` loop of `processQueue` (lines 173-204): starting from
`active` running requests, split the queue into the dispatched prefix and the
remaining suffix. -/
def drainAux (active : ℕ) : List TileRequest → List TileRequest × List TileRequest
  | [] => ([], [])
  | t :: rest =>
    if active < MAX_CONCURRENT_REQUESTS then
      let p := drainAux (active + 1) rest
      (t :: p.1, p.2)
    else ([], t :: rest)

/-- `processQueue` (lines 170-205): no-op when destroyed, otherwise dispatch
queued requests while `activeRequests < MAX_CONCURRENT_REQUESTS`.  Each
dispatched request increments `activeRequests` and creates a pending fetch. -/
def processQueue (s : MState) : MState :=
  if s.isDestroyed then s
  else
    let p := drainAux s.activeRequests s.queue
    { s with
        queue := p.2
        activeRequests := s.activeRequests + p.1.length
        inFlight := s.inFlight ++ p.1 }

/-- `update` (lines 118-168): destroyed guard, then steps 1-3, then
`processQueue`. -/
def update (lon : ℚ) (s : MState) : MState :=
  if s.isDestroyed then s else processQueue (recompute lon s)

/-- Completion of a dispatched fetch that succeeded (lines 179-203): the
`.then` handler draws the cropped tile, marks the slot loaded and notifies,
unless destroyed; the `.finally` handler decrements `activeRequests` and pumps
the queue.  The settled promise leaves `inFlight`. -/
def completeSuccess (t : TileRequest) (s : MState) : MState :=
  let s1 :=
    if s.isDestroyed then s
    else
      { s with
          buffer := s.buffer ++ [tileDrawOp t.x t.y]
          tilesLoaded := s.tilesLoaded.set (t.y * numTilesX + t.x) true
          notifications := s.notifications + 1 }
  let s2 := { s1 with activeRequests := s1.activeRequests - 1, inFlight := s1.inFlight.erase t }
  processQueue s2

/-- Completion of a dispatched fetch that failed (lines 196-203): the `.catch`
handler only logs; the `.finally` handler decrements `activeRequests` and pumps
the queue. -/
def completeFailure (t : TileRequest) (s : MState) : MState :=
  let s2 := { s with activeRequests := s.activeRequests - 1, inFlight := s.inFlight.erase t }
  processQueue s2

/-- `destroy` (lines 207-210). -/
def destroy (s : MState) : MState := { s with isDestroyed := true, queue := [] }

/-- Completion of a successful base-layer tile fetch (lines 98-108): draw the
upscaled cropped tile and notify, unless destroyed. -/
def baseTileSuccess (x y : ℕ) (s : MState) : MState :=
  if s.isDestroyed then s
  else
    { s with
        buffer := s.buffer ++ [baseDrawOp x y]
        notifications := s.notifications + 1 }

/-- Completion of a failed base-layer tile fetch (line 109): only logs. -/
def baseTileFailure (s : MState) : MState := s

/-- `getProgress` (lines 213-217).  `loaded / total * 100` is exact in binary
floating point for `total = 64`, so `Math.floor` of it is natural division. -/
def getProgress (s : MState) : ℕ :=
  ((s.tilesLoaded.count true) * 100) / s.tilesLoaded.length

/-- The slot of a request. -/
def slotOf (t : TileRequest) : ℕ × ℕ := (t.x, t.y)

/-- Slots with an entry in the pending queue. -/
def qslots (s : MState) : List (ℕ × ℕ) := s.queue.map slotOf

/-- Slots with a dispatched fetch whose handlers have not yet run. -/
def iflSlots (s : MState) : List (ℕ × ℕ) := s.inFlight.map slotOf

/-- Number of pending fetches for a given slot. -/
def countSlot (l : List TileRequest) (p : ℕ × ℕ) : ℕ :=
  l.countP fun t => t.x == p.1 && t.y == p.2

/-- The events that can occur on a `TileManager`: an `update` call with any
longitude, the completion (success or failure) of any pending fetch, a
`destroy` call, and the completion of any base-layer fetch. -/
inductive Step : MState → MState → Prop where
  | doUpdate (lon : ℚ) (s : MState) : Step s (update lon s)
  | doSuccess (t : TileRequest) (s : MState) (h : t ∈ s.inFlight) :
      Step s (completeSuccess t s)
  | doFailure (t : TileRequest) (s : MState) (h : t ∈ s.inFlight) :
      Step s (completeFailure t s)
  | doDestroy (s : MState) : Step s (destroy s)
  | doBaseSuccess (x y : ℕ) (s : MState) (hx : x < 2 ^ baseZoom) (hy : y < 2 ^ baseZoom) :
      Step s (baseTileSuccess x y s)
  | doBaseFailure (s : MState) : Step s (baseTileFailure s)

/-- States reachable from the freshly constructed manager. -/
def Reachable (s : MState) : Prop := Relation.ReflTransGen Step initState s

/-- A base-layer completion event, for reasoning about sequences of them. -/
inductive BaseEvent where
  | success (x y : ℕ) : BaseEvent
  | failure : BaseEvent

/-- Apply a sequence of base-layer completion events. -/
def applyBase : List BaseEvent → MState → MState
  | [], s => s
  | BaseEvent.success x y :: evs, s => applyBase evs (baseTileSuccess x y s)
  | BaseEvent.failure :: evs, s => applyBase evs (baseTileFailure s)

/-- The priority formula as the specification states it:
`min |x - centerX| (tilesPerSide - |x - centerX|) + 0.5 * |y - tilesPerSide/2 - 0.5|`. -/
def priorityFormula (c : ℚ) (x y : ℕ) : ℚ :=
  min |(x : ℚ) - c| ((numTilesX : ℚ) - |(x : ℚ) - c|) + 0.5 * distY y

/-- The structural invariant maintained by every event: `activeRequests`
counts the pending fetches, never exceeds the concurrency cap, the load-state
array keeps its size, and the queue holds at most one entry per slot. -/
def Inv (s : MState) : Prop :=
  s.activeRequests = s.inFlight.length ∧
  s.activeRequests ≤ MAX_CONCURRENT_REQUESTS ∧
  s.tilesLoaded.length = numTilesX * numTilesX ∧
  (qslots s).Nodup

/-- Concrete execution state `exS1` (see the evaluation lemmas below). -/
def exS1 : MState where
  tilesLoaded := List.replicate (numTilesX * numTilesX) false
  activeRequests := 4
  queue := [TileRequest.mk 0 2 (5/4), TileRequest.mk 1 4 (5/4), TileRequest.mk 7 4 (5/4), TileRequest.mk 1 5 (5/4), TileRequest.mk 7 5 (5/4), TileRequest.mk 0 7 (5/4), TileRequest.mk 0 1 (7/4), TileRequest.mk 1 3 (7/4), TileRequest.mk 7 3 (7/4), TileRequest.mk 1 6 (7/4), TileRequest.mk 7 6 (7/4), TileRequest.mk 0 0 (9/4), TileRequest.mk 1 2 (9/4), TileRequest.mk 7 2 (9/4), TileRequest.mk 2 4 (9/4), TileRequest.mk 6 4 (9/4), TileRequest.mk 2 5 (9/4), TileRequest.mk 6 5 (9/4), TileRequest.mk 1 7 (9/4), TileRequest.mk 7 7 (9/4), TileRequest.mk 1 1 (11/4), TileRequest.mk 7 1 (11/4), TileRequest.mk 2 3 (11/4), TileRequest.mk 6 3 (11/4), TileRequest.mk 2 6 (11/4), TileRequest.mk 6 6 (11/4), TileRequest.mk 1 0 (13/4), TileRequest.mk 7 0 (13/4), TileRequest.mk 2 2 (13/4), TileRequest.mk 6 2 (13/4), TileRequest.mk 3 4 (13/4), TileRequest.mk 5 4 (13/4), TileRequest.mk 3 5 (13/4), TileRequest.mk 5 5 (13/4), TileRequest.mk 2 7 (13/4), TileRequest.mk 6 7 (13/4), TileRequest.mk 2 1 (15/4), TileRequest.mk 6 1 (15/4), TileRequest.mk 3 3 (15/4), TileRequest.mk 5 3 (15/4), TileRequest.mk 3 6 (15/4), TileRequest.mk 5 6 (15/4), TileRequest.mk 2 0 (17/4), TileRequest.mk 6 0 (17/4), TileRequest.mk 3 2 (17/4), TileRequest.mk 5 2 (17/4), TileRequest.mk 4 4 (17/4), TileRequest.mk 4 5 (17/4), TileRequest.mk 3 7 (17/4), TileRequest.mk 5 7 (17/4), TileRequest.mk 3 1 (19/4), TileRequest.mk 5 1 (19/4), TileRequest.mk 4 3 (19/4), TileRequest.mk 4 6 (19/4), TileRequest.mk 3 0 (21/4), TileRequest.mk 5 0 (21/4), TileRequest.mk 4 2 (21/4), TileRequest.mk 4 7 (21/4), TileRequest.mk 4 1 (23/4), TileRequest.mk 4 0 (25/4)]
  inFlight := [TileRequest.mk 0 4 (1/4), TileRequest.mk 0 5 (1/4), TileRequest.mk 0 3 (3/4), TileRequest.mk 0 6 (3/4)]
  isDestroyed := false
  buffer := [DrawOp.backgroundFill 0 0 (numTilesX * TILE_SIZE) (numTilesX * TILE_SIZE)]
  notifications := 0

end YandexMap

namespace YandexMap

instance : IsTotal TileRequest distLE := ⟨fun a b => le_total a.dist b.dist⟩

instance : IsTrans TileRequest distLE := ⟨fun _ _ _ hab hbc => le_trans hab hbc⟩

/-! ### Basic facts about the drain loop -/

lemma drainAux_append (a : ℕ) (q : List TileRequest) :
    (drainAux a q).1 ++ (drainAux a q).2 = q := by
  induction q generalizing a with
  | nil => simp [drainAux]
  | cons t rest ih =>
    by_cases h : a < MAX_CONCURRENT_REQUESTS
    · simp only [drainAux, if_pos h]
      simpa using ih (a + 1)
    · simp [drainAux, if_neg h]

lemma drainAux_length_le (a : ℕ) (q : List TileRequest)
    (h : a ≤ MAX_CONCURRENT_REQUESTS) :
    a + (drainAux a q).1.length ≤ MAX_CONCURRENT_REQUESTS := by
  induction q generalizing a with
  | nil => simpa [drainAux] using h
  | cons t rest ih =>
    by_cases hlt : a < MAX_CONCURRENT_REQUESTS
    · simp only [drainAux, if_pos hlt, List.length_cons]
      have := ih (a + 1) hlt
      omega
    · simpa [drainAux, if_neg hlt] using h

lemma drainAux_rest_eq_drop (a : ℕ) (q : List TileRequest) :
    (drainAux a q).2 = q.drop (drainAux a q).1.length := by
  conv_lhs => rw [← List.drop_left (drainAux a q).1 (drainAux a q).2]
  rw [drainAux_append]

lemma drainAux_rest_sublist (a : ℕ) (q : List TileRequest) :
    (drainAux a q).2.Sublist q := by
  rw [drainAux_rest_eq_drop]
  exact List.drop_sublist _ _

lemma drainAux_dispatched_mem {a : ℕ} {q : List TileRequest} {t : TileRequest}
    (h : t ∈ (drainAux a q).1) : t ∈ q := by
  rw [← drainAux_append a q]
  exact List.mem_append_left _ h

/-! ### The fields `processQueue` never touches -/

lemma processQueue_tilesLoaded (s : MState) :
    (processQueue s).tilesLoaded = s.tilesLoaded := by
  unfold processQueue; split <;> rfl

lemma processQueue_buffer (s : MState) : (processQueue s).buffer = s.buffer := by
  unfold processQueue; split <;> rfl

lemma processQueue_notifications (s : MState) :
    (processQueue s).notifications = s.notifications := by
  unfold processQueue; split <;> rfl

lemma processQueue_isDestroyed (s : MState) :
    (processQueue s).isDestroyed = s.isDestroyed := by
  unfold processQueue; split <;> rfl

/-! ### The center index lies in `[0, numTilesX)` -/

lemma centerXOf_nonneg (lon : ℚ) : 0 ≤ centerXOf lon := by
  unfold centerXOf
  have h := Int.fract_nonneg ((lon + 180) / 360)
  rw [Int.fract] at h
  positivity

lemma centerXOf_lt (lon : ℚ) : centerXOf lon < (numTilesX : ℚ) := by
  unfold centerXOf
  have h : (lon + 180) / 360 - ⌊(lon + 180) / 360⌋ < 1 := by
    have := Int.fract_lt_one ((lon + 180) / 360)
    rwa [Int.fract] at this
  have hn : (0 : ℚ) < (numTilesX : ℚ) := by norm_num [numTilesX, targetZoom]
  calc ((lon + 180) / 360 - ⌊(lon + 180) / 360⌋) * (numTilesX : ℚ)
      < 1 * (numTilesX : ℚ) := by
        exact mul_lt_mul_of_pos_right h hn
    _ = (numTilesX : ℚ) := one_mul _

/-! ### The wrapped distance -/

lemma wrapDist_le {c : ℚ} (hc0 : 0 ≤ c) (hc : c < (numTilesX : ℚ)) {x : ℕ}
    (hx : x < numTilesX) : wrapDist c x ≤ (numTilesX : ℚ) / 2 := by
  have hxq : (x : ℚ) ≤ (numTilesX : ℚ) - 1 := by
    have : (x : ℚ) + 1 ≤ (numTilesX : ℚ) := by exact_mod_cast Nat.succ_le_of_lt hx
    linarith
  have habs : |(x : ℚ) - c| < (numTilesX : ℚ) := by
    rw [abs_sub_lt_iff]
    constructor <;> linarith [Nat.cast_nonneg (α := ℚ) x]
  unfold wrapDist
  by_cases h : |(x : ℚ) - c| > (numTilesX : ℚ) / 2
  · rw [if_pos h]; linarith
  · rw [if_neg h]; linarith

lemma wrapDist_eq_min {c : ℚ} (hc0 : 0 ≤ c) (hc : c < (numTilesX : ℚ)) {x : ℕ}
    (hx : x < numTilesX) :
    wrapDist c x = min |(x : ℚ) - c| ((numTilesX : ℚ) - |(x : ℚ) - c|) := by
  unfold wrapDist
  by_cases h : |(x : ℚ) - c| > (numTilesX : ℚ) / 2
  · rw [if_pos h, min_comm, min_eq_left (by linarith)]
  · rw [if_neg h, min_eq_left (by linarith)]

lemma wrapDist_admitted {c : ℚ} (hc0 : 0 ≤ c) (hc : c < (numTilesX : ℚ)) {x : ℕ}
    (hx : x < numTilesX) : wrapDist c x < (numTilesX : ℚ) / 2 + 1 := by
  have := wrapDist_le hc0 hc hx
  linarith

/-! ### The slot scan -/

lemma mem_allSlots {x y : ℕ} : (x, y) ∈ allSlots ↔ x < numTilesX ∧ y < numTilesX := by
  simp only [allSlots, List.mem_flatMap, List.mem_map, List.mem_range, Prod.mk.injEq]
  constructor
  · rintro ⟨b, hb, a, ha, hax, hby⟩
    exact ⟨hax ▸ ha, hby ▸ hb⟩
  · rintro ⟨hx, hy⟩
    exact ⟨y, hy, x, hx, rfl, rfl⟩

lemma considerSlot_cases (c : ℚ) (loaded : List Bool) (q : List TileRequest)
    (x y : ℕ) :
    considerSlot c loaded q x y = q ∨
      (considerSlot c loaded q x y = q ++ [⟨x, y, wrapDist c x + distY y * 0.5⟩] ∧
        loaded.getD (y * numTilesX + x) false = false ∧
        (q.any fun item => item.x == x && item.y == y) = false ∧
        wrapDist c x < (numTilesX : ℚ) / 2 + 1) := by
  simp only [considerSlot]
  by_cases h1 : loaded.getD (y * numTilesX + x) false
  · rw [if_pos h1]; exact Or.inl rfl
  · have h1f : loaded.getD (y * numTilesX + x) false = false := by
      revert h1; cases loaded.getD (y * numTilesX + x) false <;> simp
    rw [if_neg h1]
    by_cases h2 : (q.any fun item => item.x == x && item.y == y)
    · rw [if_pos h2]; exact Or.inl rfl
    · have h2f : (q.any fun item => item.x == x && item.y == y) = false := by
        revert h2; cases (q.any fun item => item.x == x && item.y == y) <;> simp
      rw [if_neg h2]
      by_cases h3 : wrapDist c x < (numTilesX : ℚ) / 2 + 1
      · rw [if_pos h3]
        exact Or.inr ⟨rfl, h1f, h2f, h3⟩
      · rw [if_neg h3]; exact Or.inl rfl

lemma considerSlot_mem_of_mem {c : ℚ} {loaded : List Bool} {q : List TileRequest}
    {x y : ℕ} {t : TileRequest} (h : t ∈ q) : t ∈ considerSlot c loaded q x y := by
  rcases considerSlot_cases c loaded q x y with he | ⟨he, _⟩ <;>
    rw [he] <;> first | exact h | exact List.mem_append_left _ h

lemma mem_considerSlot {c : ℚ} {loaded : List Bool} {q : List TileRequest}
    {x y : ℕ} {t : TileRequest} (h : t ∈ considerSlot c loaded q x y) :
    t ∈ q ∨
      (t.x = x ∧ t.y = y ∧
        t.dist = wrapDist c t.x + distY t.y * 0.5 ∧
        loaded.getD (t.y * numTilesX + t.x) false = false ∧
        wrapDist c t.x < (numTilesX : ℚ) / 2 + 1) := by
  rcases considerSlot_cases c loaded q x y with he | ⟨he, h1, _, h3⟩
  · rw [he] at h; exact Or.inl h
  · rw [he] at h
    rcases List.mem_append.1 h with h' | h'
    · exact Or.inl h'
    · right
      have : t = ⟨x, y, wrapDist c x + distY y * 0.5⟩ := by simpa using h'
      subst this
      exact ⟨rfl, rfl, rfl, h1, h3⟩

lemma mem_scanFold {c : ℚ} {loaded : List Bool} {t : TileRequest} :
    ∀ (slots : List (ℕ × ℕ)) (q : List TileRequest),
      (∀ p ∈ slots, p.1 < numTilesX ∧ p.2 < numTilesX) →
      t ∈ slots.foldl (fun acc p => considerSlot c loaded acc p.1 p.2) q →
      t ∈ q ∨
        (t.x < numTilesX ∧ t.y < numTilesX ∧
          t.dist = wrapDist c t.x + distY t.y * 0.5 ∧
          loaded.getD (t.y * numTilesX + t.x) false = false ∧
          wrapDist c t.x < (numTilesX : ℚ) / 2 + 1)
  | [], q, _, h => Or.inl h
  | p :: rest, q, hb, h => by
    rcases mem_scanFold rest (considerSlot c loaded q p.1 p.2)
        (fun r hr => hb r (List.mem_cons_of_mem p hr)) h with h' | h'
    · rcases mem_considerSlot h' with h'' | ⟨hx, hy, h1, h2, h3⟩
      · exact Or.inl h''
      · refine Or.inr ⟨?_, ?_, h1, h2, h3⟩
        · rw [hx]; exact (hb p (List.mem_cons_self p rest)).1
        · rw [hy]; exact (hb p (List.mem_cons_self p rest)).2
    · exact Or.inr h'

lemma mem_scan {c : ℚ} {loaded : List Bool} {q : List TileRequest}
    {t : TileRequest} (h : t ∈ scan c loaded q) :
    t ∈ q ∨
      (t.x < numTilesX ∧ t.y < numTilesX ∧
        t.dist = wrapDist c t.x + distY t.y * 0.5 ∧
        loaded.getD (t.y * numTilesX + t.x) false = false ∧
        wrapDist c t.x < (numTilesX : ℚ) / 2 + 1) := by
  refine mem_scanFold allSlots q ?_ h
  intro p hp
  have : (p.1, p.2) ∈ allSlots := by simpa using hp
  exact mem_allSlots.1 this

lemma scan_mem_of_mem {c : ℚ} {loaded : List Bool} {q : List TileRequest}
    {t : TileRequest} (h : t ∈ q) : t ∈ scan c loaded q := by
  unfold scan
  induction allSlots generalizing q with
  | nil => exact h
  | cons p rest ih => exact ih (considerSlot_mem_of_mem h)

end YandexMap

namespace YandexMap

lemma slotOf_mem_considerSlot_self {c : ℚ} {loaded : List Bool}
    {q : List TileRequest} {x y : ℕ}
    (hc0 : 0 ≤ c) (hc : c < (numTilesX : ℚ)) (hx : x < numTilesX)
    (hl : loaded.getD (y * numTilesX + x) false = false) :
    (x, y) ∈ (considerSlot c loaded q x y).map slotOf := by
  simp only [considerSlot, hl]
  rw [if_neg (by simp)]
  by_cases h2 : (q.any fun item => item.x == x && item.y == y)
  · rw [if_pos h2]
    rcases List.any_eq_true.1 h2 with ⟨item, hitem, hxy⟩
    have hxy' : item.x = x ∧ item.y = y := by simpa using hxy
    exact List.mem_map.2 ⟨item, hitem, by simp [slotOf, hxy'.1, hxy'.2]⟩
  · rw [if_neg h2, if_pos (wrapDist_admitted hc0 hc hx), List.map_append]
    exact List.mem_append_right _ (by simp [slotOf])

lemma slotOf_mem_considerSlot_of_mem {c : ℚ} {loaded : List Bool}
    {q : List TileRequest} {x y a b : ℕ}
    (h : (a, b) ∈ q.map slotOf) : (a, b) ∈ (considerSlot c loaded q x y).map slotOf := by
  rcases considerSlot_cases c loaded q x y with he | ⟨he, _⟩ <;> rw [he]
  · exact h
  · rw [List.map_append]
    exact List.mem_append_left _ h

lemma slotOf_mem_scanFold_of_mem {c : ℚ} {loaded : List Bool} {a b : ℕ} :
    ∀ (slots : List (ℕ × ℕ)) (q : List TileRequest),
      (a, b) ∈ q.map slotOf →
      (a, b) ∈ (slots.foldl (fun acc p => considerSlot c loaded acc p.1 p.2) q).map slotOf
  | [], _, h => h
  | p :: rest, q, h =>
    slotOf_mem_scanFold_of_mem rest _ (slotOf_mem_considerSlot_of_mem h)

lemma slotOf_mem_fold_self {c : ℚ} {loaded : List Bool} {x y : ℕ}
    (hc0 : 0 ≤ c) (hc : c < (numTilesX : ℚ)) (hx : x < numTilesX)
    (hl : loaded.getD (y * numTilesX + x) false = false) :
    ∀ (slots : List (ℕ × ℕ)) (q : List TileRequest), (x, y) ∈ slots →
      (x, y) ∈ (slots.foldl (fun acc p => considerSlot c loaded acc p.1 p.2) q).map slotOf
  | [], _, h => absurd h (by simp)
  | p :: rest, q, h => by
    rcases List.mem_cons.1 h with hp | hp
    · rw [List.foldl_cons]
      refine slotOf_mem_scanFold_of_mem rest _ ?_
      rw [← hp]
      exact slotOf_mem_considerSlot_self hc0 hc hx hl
    · exact slotOf_mem_fold_self hc0 hc hx hl rest _ hp

lemma slotOf_mem_scan_self {c : ℚ} {loaded : List Bool} {q : List TileRequest}
    {x y : ℕ} (hc0 : 0 ≤ c) (hc : c < (numTilesX : ℚ)) (hx : x < numTilesX)
    (hy : y < numTilesX) (hl : loaded.getD (y * numTilesX + x) false = false) :
    (x, y) ∈ (scan c loaded q).map slotOf :=
  slotOf_mem_fold_self hc0 hc hx hl allSlots q (mem_allSlots.2 ⟨hx, hy⟩)

lemma nodup_slots_considerSlot {c : ℚ} {loaded : List Bool} {q : List TileRequest}
    {x y : ℕ} (h : (q.map slotOf).Nodup) :
    ((considerSlot c loaded q x y).map slotOf).Nodup := by
  rcases considerSlot_cases c loaded q x y with he | ⟨he, _, h2, _⟩ <;> rw [he]
  · exact h
  · rw [List.map_append]
    apply List.Nodup.append h (by simp)
    intro p hp hp'
    have hpx : p = (x, y) := by simpa [slotOf] using hp'
    subst hpx
    rcases List.mem_map.1 hp with ⟨item, hitem, hsl⟩
    have hxx : item.x = x := congrArg Prod.fst hsl
    have hyy : item.y = y := congrArg Prod.snd hsl
    have : (q.any fun item => item.x == x && item.y == y) = true :=
      List.any_eq_true.2 ⟨item, hitem, by simp [hxx, hyy]⟩
    rw [this] at h2
    cases h2

lemma nodup_slots_scan {c : ℚ} {loaded : List Bool} {q : List TileRequest}
    (h : (q.map slotOf).Nodup) : ((scan c loaded q).map slotOf).Nodup := by
  unfold scan
  induction allSlots generalizing q with
  | nil => exact h
  | cons p rest ih => exact ih (nodup_slots_considerSlot h)

/-! ### The sort -/

lemma insertionSort_eq_foldr (l : List TileRequest) :
    List.insertionSort distLE l = l.foldr (List.orderedInsert distLE) [] := by
  induction l with
  | nil => rfl
  | cons a l ih => simp [List.insertionSort, ih]

lemma sorted_queue_recompute (lon : ℚ) (s : MState) :
    List.Sorted distLE (recompute lon s).queue :=
  List.sorted_insertionSort distLE _

lemma perm_queue_recompute (lon : ℚ) (s : MState) :
    (recompute lon s).queue.Perm (scan (centerXOf lon) s.tilesLoaded s.queue) :=
  List.perm_insertionSort distLE _

/-! ### Bool lists -/

lemma getD_replicate_false (n i : ℕ) : (List.replicate n false).getD i false = false := by
  induction n generalizing i with
  | zero => simp
  | succ m ih =>
    cases i with
    | zero => simp
    | succ j => simpa using ih j

lemma getD_set_true_mono (l : List Bool) (i j : ℕ)
    (h : l.getD i false = true) : (l.set j true).getD i false = true := by
  induction l generalizing i j with
  | nil => simpa using h
  | cons b t ih =>
    cases j with
    | zero =>
      cases i with
      | zero => simp
      | succ i' => simpa using h
    | succ j' =>
      cases i with
      | zero => simpa using h
      | succ i' => simpa using ih i' j' (by simpa using h)

lemma count_true_set_le (l : List Bool) (j : ℕ) :
    l.count true ≤ (l.set j true).count true := by
  induction l generalizing j with
  | nil => simp
  | cons b t ih =>
    cases j with
    | zero =>
      cases b <;> simp [List.count_cons]
    | succ j' =>
      simpa [List.count_cons] using ih j'

end YandexMap

namespace YandexMap

/-! ### Preservation of the structural invariant -/

lemma processQueue_inv {s : MState} (h : Inv s) : Inv (processQueue s) := by
  obtain ⟨h1, h2, h3, h4⟩ := h
  unfold processQueue
  by_cases hd : s.isDestroyed
  · rw [if_pos hd]; exact ⟨h1, h2, h3, h4⟩
  · rw [if_neg hd]
    refine ⟨?_, ?_, h3, ?_⟩
    · simp [h1, List.length_append]
    · simpa using drainAux_length_le _ _ h2
    · exact List.Nodup.sublist ((drainAux_rest_sublist _ _).map slotOf) h4

lemma recompute_inv {lon : ℚ} {s : MState} (h : Inv s) : Inv (recompute lon s) := by
  obtain ⟨h1, h2, h3, h4⟩ := h
  refine ⟨h1, h2, h3, ?_⟩
  have hperm := (List.perm_insertionSort distLE
    (scan (centerXOf lon) s.tilesLoaded s.queue)).map slotOf
  exact (List.Perm.nodup_iff hperm).2 (nodup_slots_scan h4)

lemma update_inv {lon : ℚ} {s : MState} (h : Inv s) : Inv (update lon s) := by
  unfold update
  by_cases hd : s.isDestroyed
  · rw [if_pos hd]; exact h
  · rw [if_neg hd]; exact processQueue_inv (recompute_inv h)

lemma completeSuccess_inv {t : TileRequest} {s : MState} (ht : t ∈ s.inFlight)
    (h : Inv s) : Inv (completeSuccess t s) := by
  obtain ⟨h1, h2, h3, h4⟩ := h
  unfold completeSuccess
  apply processQueue_inv
  have hlen : (s.inFlight.erase t).length = s.inFlight.length - 1 :=
    List.length_erase_of_mem ht
  by_cases hd : s.isDestroyed
  · rw [if_pos hd]
    exact ⟨by simp [hlen, h1], Nat.le_trans (Nat.sub_le _ _) h2, h3, h4⟩
  · rw [if_neg hd]
    exact ⟨by simp [hlen, h1], Nat.le_trans (Nat.sub_le _ _) h2, by simp [h3], h4⟩

lemma completeFailure_inv {t : TileRequest} {s : MState} (ht : t ∈ s.inFlight)
    (h : Inv s) : Inv (completeFailure t s) := by
  obtain ⟨h1, h2, h3, h4⟩ := h
  unfold completeFailure
  apply processQueue_inv
  have hlen : (s.inFlight.erase t).length = s.inFlight.length - 1 :=
    List.length_erase_of_mem ht
  exact ⟨by simp [hlen, h1], Nat.le_trans (Nat.sub_le _ _) h2, h3, h4⟩

lemma destroy_inv {s : MState} (h : Inv s) : Inv (destroy s) := by
  obtain ⟨h1, h2, h3, _⟩ := h
  exact ⟨h1, h2, h3, by simp [destroy, qslots]⟩

lemma baseTileSuccess_inv {x y : ℕ} {s : MState} (h : Inv s) :
    Inv (baseTileSuccess x y s) := by
  obtain ⟨h1, h2, h3, h4⟩ := h
  unfold baseTileSuccess
  by_cases hd : s.isDestroyed
  · rw [if_pos hd]; exact ⟨h1, h2, h3, h4⟩
  · rw [if_neg hd]; exact ⟨h1, h2, h3, h4⟩

lemma inv_step {s s' : MState} (h : Inv s) (hstep : Step s s') : Inv s' := by
  cases hstep with
  | doUpdate lon _ => exact update_inv h
  | doSuccess t _ ht => exact completeSuccess_inv ht h
  | doFailure t _ ht => exact completeFailure_inv ht h
  | doDestroy _ => exact destroy_inv h
  | doBaseSuccess x y _ _ _ => exact baseTileSuccess_inv h
  | doBaseFailure _ => exact h

lemma inv_init : Inv initState := by
  refine ⟨rfl, ?_, ?_, ?_⟩
  · norm_num [initState, MAX_CONCURRENT_REQUESTS]
  · simp [initState]
  · simp [qslots, initState]

lemma reachable_inv {s : MState} (h : Reachable s) : Inv s := by
  induction h with
  | refl => exact inv_init
  | tail _ hstep ih => exact inv_step ih hstep

/-! ### Monotonicity of the load state -/

lemma recompute_tilesLoaded (lon : ℚ) (s : MState) :
    (recompute lon s).tilesLoaded = s.tilesLoaded := rfl

lemma update_tilesLoaded (lon : ℚ) (s : MState) :
    (update lon s).tilesLoaded = s.tilesLoaded := by
  unfold update
  split
  · rfl
  · rw [processQueue_tilesLoaded, recompute_tilesLoaded]

lemma update_buffer (lon : ℚ) (s : MState) : (update lon s).buffer = s.buffer := by
  unfold update
  split
  · rfl
  · rw [processQueue_buffer]; rfl

lemma update_notifications (lon : ℚ) (s : MState) :
    (update lon s).notifications = s.notifications := by
  unfold update
  split
  · rfl
  · rw [processQueue_notifications]; rfl

lemma completeFailure_tilesLoaded (t : TileRequest) (s : MState) :
    (completeFailure t s).tilesLoaded = s.tilesLoaded := by
  unfold completeFailure
  rw [processQueue_tilesLoaded]

lemma completeFailure_buffer (t : TileRequest) (s : MState) :
    (completeFailure t s).buffer = s.buffer := by
  unfold completeFailure
  rw [processQueue_buffer]

lemma completeFailure_notifications (t : TileRequest) (s : MState) :
    (completeFailure t s).notifications = s.notifications := by
  unfold completeFailure
  rw [processQueue_notifications]

lemma step_loaded_mono {s s' : MState} (hstep : Step s s') :
    s'.tilesLoaded.length = s.tilesLoaded.length ∧
    (∀ i, s.tilesLoaded.getD i false = true → s'.tilesLoaded.getD i false = true) ∧
    s.tilesLoaded.count true ≤ s'.tilesLoaded.count true := by
  cases hstep with
  | doUpdate lon _ =>
    rw [update_tilesLoaded]
    exact ⟨rfl, fun _ h => h, le_rfl⟩
  | doSuccess t _ ht =>
    unfold completeSuccess
    rw [processQueue_tilesLoaded]
    by_cases hd : s.isDestroyed
    · rw [if_pos hd]
      exact ⟨rfl, fun _ h => h, le_rfl⟩
    · rw [if_neg hd]
      refine ⟨by simp, ?_, ?_⟩
      · exact fun i h => getD_set_true_mono _ i _ h
      · exact count_true_set_le _ _
  | doFailure t _ ht =>
    rw [completeFailure_tilesLoaded]
    exact ⟨rfl, fun _ h => h, le_rfl⟩
  | doDestroy _ => exact ⟨rfl, fun _ h => h, le_rfl⟩
  | doBaseSuccess x y _ _ _ =>
    unfold baseTileSuccess
    by_cases hd : s.isDestroyed
    · rw [if_pos hd]; exact ⟨rfl, fun _ h => h, le_rfl⟩
    · rw [if_neg hd]; exact ⟨rfl, fun _ h => h, le_rfl⟩
  | doBaseFailure _ => exact ⟨rfl, fun _ h => h, le_rfl⟩

lemma steps_loaded_mono {s s' : MState} (h : Relation.ReflTransGen Step s s') :
    s'.tilesLoaded.length = s.tilesLoaded.length ∧
    (∀ i, s.tilesLoaded.getD i false = true → s'.tilesLoaded.getD i false = true) ∧
    s.tilesLoaded.count true ≤ s'.tilesLoaded.count true := by
  induction h with
  | refl => exact ⟨rfl, fun _ h => h, le_rfl⟩
  | tail _ hstep ih =>
    obtain ⟨l1, m1, c1⟩ := ih
    obtain ⟨l2, m2, c2⟩ := step_loaded_mono hstep
    exact ⟨l2.trans l1, fun i h => m2 i (m1 i h), le_trans c1 c2⟩

lemma steps_progress_mono {s s' : MState} (h : Relation.ReflTransGen Step s s') :
    getProgress s ≤ getProgress s' := by
  obtain ⟨hl, _, hc⟩ := steps_loaded_mono h
  unfold getProgress
  rw [hl]
  exact Nat.div_le_div_right (Nat.mul_le_mul_right _ hc)

end YandexMap

namespace YandexMap

/-! ### Numeric bounds for the latitude range of `tileToGeo` -/

lemma arctan_ge_cubic {t : ℝ} (ht : 0 ≤ t) : t - t ^ 3 / 3 ≤ Real.arctan t := by
  have hderiv : ∀ x : ℝ,
      HasDerivAt (fun u : ℝ => Real.arctan u - (u - u ^ 3 / 3))
        (1 / (1 + x ^ 2) - (1 - x ^ 2)) x := by
    intro x
    have h1 := Real.hasDerivAt_arctan x
    have h3 : HasDerivAt (fun u : ℝ => u ^ 3) (3 * x ^ 2) x := by
      simpa using hasDerivAt_pow 3 x
    have h2 : HasDerivAt (fun u : ℝ => u - u ^ 3 / 3) (1 - x ^ 2) x := by
      have h4 := (hasDerivAt_id x).sub (h3.div_const 3)
      have h5 : 1 - 3 * x ^ 2 / 3 = 1 - x ^ 2 := by ring
      rw [h5] at h4
      exact h4
    exact h1.sub h2
  have hmono :
      MonotoneOn (fun u : ℝ => Real.arctan u - (u - u ^ 3 / 3)) (Set.Icc 0 t) := by
    apply monotoneOn_of_deriv_nonneg (convex_Icc 0 t)
    · exact fun x _ => (hderiv x).differentiableAt.continuousAt.continuousWithinAt
    · exact fun x _ => (hderiv x).differentiableAt.differentiableWithinAt
    · intro x _
      rw [(hderiv x).deriv]
      have hx2 : (0 : ℝ) < 1 + x ^ 2 := by positivity
      rw [sub_nonneg, le_div_iff hx2]
      nlinarith [sq_nonneg (x ^ 2)]
  have h0 : (0 : ℝ) ∈ Set.Icc (0 : ℝ) t := Set.mem_Icc.2 ⟨le_rfl, ht⟩
  have h1 : t ∈ Set.Icc (0 : ℝ) t := Set.mem_Icc.2 ⟨ht, le_rfl⟩
  have := hmono h0 h1 ht
  simp only [Real.arctan_zero] at this
  linarith

lemma exp_small_bound : Real.exp 0.141593 ≤ 1.152112 := by
  have h := Real.exp_bound' (x := 0.141593) (by norm_num) (by norm_num) (n := 4) (by norm_num)
  calc Real.exp 0.141593
      ≤ (∑ m ∈ Finset.range 4, (0.141593 : ℝ) ^ m / m.factorial) +
        (0.141593 : ℝ) ^ 4 * (4 + 1) / (Nat.factorial 4 * 4) := h
    _ ≤ 1.152112 := by
        simp only [Finset.sum_range_succ, Finset.sum_range_zero, Nat.factorial]
        norm_num

lemma exp_pi_lt : Real.exp Real.pi < 23.15 := by
  have hpi : Real.pi < 3.141593 := Real.pi_lt_d6
  have h1 : Real.exp Real.pi < Real.exp 3.141593 := Real.exp_lt_exp.2 hpi
  have h2 : Real.exp 3.141593 = Real.exp 1 ^ 3 * Real.exp 0.141593 := by
    rw [← Real.exp_nat_mul, ← Real.exp_add]
    norm_num
  have h3 : Real.exp 1 ^ 3 ≤ 2.7182818286 ^ 3 := by
    apply pow_le_pow_left (Real.exp_pos 1).le (le_of_lt Real.exp_one_lt_d9)
  have h4 : Real.exp 1 ^ 3 * Real.exp 0.141593 ≤ 2.7182818286 ^ 3 * 1.152112 := by
    apply mul_le_mul h3 exp_small_bound (Real.exp_pos _).le (by positivity)
  have h5 : (2.7182818286 : ℝ) ^ 3 * 1.152112 < 23.15 := by norm_num
  linarith [h2 ▸ h1]

lemma sinh_pi_le : Real.sinh Real.pi ≤ ((23.15 : ℝ) - (23.15 : ℝ)⁻¹) / 2 := by
  rw [Real.sinh_eq]
  have h1 : Real.exp Real.pi < 23.15 := exp_pi_lt
  have h2 : Real.exp (-Real.pi) = (Real.exp Real.pi)⁻¹ := Real.exp_neg Real.pi
  have h3 : (23.15 : ℝ)⁻¹ ≤ (Real.exp Real.pi)⁻¹ := by
    apply inv_le_inv_of_le (Real.exp_pos _) h1.le
  rw [h2]
  have := Real.exp_pos Real.pi
  linarith

lemma arctan_sinh_pi_le : Real.arctan (Real.sinh Real.pi) ≤ 4253 / 9000 * Real.pi := by
  have hsp : 0 < Real.sinh Real.pi := Real.sinh_pos_iff.2 Real.pi_pos
  have hinv : Real.arctan (Real.sinh Real.pi)⁻¹ =
      Real.pi / 2 - Real.arctan (Real.sinh Real.pi) :=
    Real.arctan_inv_of_pos hsp
  have hB : (0 : ℝ) < ((23.15 : ℝ) - (23.15 : ℝ)⁻¹) / 2 := by norm_num
  have h2 : (((23.15 : ℝ) - (23.15 : ℝ)⁻¹) / 2)⁻¹ ≤ (Real.sinh Real.pi)⁻¹ :=
    inv_le_inv_of_le hsp sinh_pi_le
  have h3 : Real.arctan (((23.15 : ℝ) - (23.15 : ℝ)⁻¹) / 2)⁻¹ ≤
      Real.arctan (Real.sinh Real.pi)⁻¹ := Real.arctan_strictMono.monotone h2
  have h4 := arctan_ge_cubic (t := (((23.15 : ℝ) - (23.15 : ℝ)⁻¹) / 2)⁻¹) (by positivity)
  have h5 : 247 / 9000 * Real.pi ≤
      (((23.15 : ℝ) - (23.15 : ℝ)⁻¹) / 2)⁻¹ -
        ((((23.15 : ℝ) - (23.15 : ℝ)⁻¹) / 2)⁻¹) ^ 3 / 3 := by
    have hpi : Real.pi < 3.141593 := Real.pi_lt_d6
    have : (247 : ℝ) / 9000 * Real.pi ≤ 247 / 9000 * 3.141593 := by
      apply mul_le_mul_of_nonneg_left hpi.le (by norm_num)
    apply le_trans this
    norm_num
  linarith [hinv, h3, h4, h5]

end YandexMap

namespace YandexMap

/-! ### Evaluation of the concrete executions used by the counterexamples.
The lemmas below are machine-checked evaluations of `scan`,
`List.insertionSort` and the drain loop on concrete states. -/

lemma allSlotsGroups : allSlots =
    [(0, 0), (1, 0), (2, 0), (3, 0), (4, 0), (5, 0), (6, 0), (7, 0), (0, 1), (1, 1), (2, 1), (3, 1), (4, 1), (5, 1), (6, 1), (7, 1)] ++
    ([(0, 2), (1, 2), (2, 2), (3, 2), (4, 2), (5, 2), (6, 2), (7, 2), (0, 3), (1, 3), (2, 3), (3, 3), (4, 3), (5, 3), (6, 3), (7, 3)] ++
    ([(0, 4), (1, 4), (2, 4), (3, 4), (4, 4), (5, 4), (6, 4), (7, 4), (0, 5), (1, 5), (2, 5), (3, 5), (4, 5), (5, 5), (6, 5), (7, 5)] ++
    [(0, 6), (1, 6), (2, 6), (3, 6), (4, 6), (5, 6), (6, 6), (7, 6), (0, 7), (1, 7), (2, 7), (3, 7), (4, 7), (5, 7), (6, 7), (7, 7)])) := by rfl

lemma scanA0 : List.foldl
    (fun acc p => considerSlot 0 (List.replicate (numTilesX * numTilesX) false) acc p.1 p.2)
    []
    [(0, 0), (1, 0), (2, 0), (3, 0), (4, 0), (5, 0), (6, 0), (7, 0), (0, 1), (1, 1), (2, 1), (3, 1), (4, 1), (5, 1), (6, 1), (7, 1)] =
    [TileRequest.mk 0 0 (9/4), TileRequest.mk 1 0 (13/4), TileRequest.mk 2 0 (17/4), TileRequest.mk 3 0 (21/4), TileRequest.mk 4 0 (25/4), TileRequest.mk 5 0 (21/4), TileRequest.mk 6 0 (17/4), TileRequest.mk 7 0 (13/4), TileRequest.mk 0 1 (7/4), TileRequest.mk 1 1 (11/4), TileRequest.mk 2 1 (15/4), TileRequest.mk 3 1 (19/4), TileRequest.mk 4 1 (23/4), TileRequest.mk 5 1 (19/4), TileRequest.mk 6 1 (15/4), TileRequest.mk 7 1 (11/4)] := by
  norm_num [considerSlot, numTilesX, targetZoom, getD_replicate_false, wrapDist, distY, abs_of_nonpos, abs_of_nonneg]

lemma scanA1 : List.foldl
    (fun acc p => considerSlot 0 (List.replicate (numTilesX * numTilesX) false) acc p.1 p.2)
    [TileRequest.mk 0 0 (9/4), TileRequest.mk 1 0 (13/4), TileRequest.mk 2 0 (17/4), TileRequest.mk 3 0 (21/4), TileRequest.mk 4 0 (25/4), TileRequest.mk 5 0 (21/4), TileRequest.mk 6 0 (17/4), TileRequest.mk 7 0 (13/4), TileRequest.mk 0 1 (7/4), TileRequest.mk 1 1 (11/4), TileRequest.mk 2 1 (15/4), TileRequest.mk 3 1 (19/4), TileRequest.mk 4 1 (23/4), TileRequest.mk 5 1 (19/4), TileRequest.mk 6 1 (15/4), TileRequest.mk 7 1 (11/4)]
    [(0, 2), (1, 2), (2, 2), (3, 2), (4, 2), (5, 2), (6, 2), (7, 2), (0, 3), (1, 3), (2, 3), (3, 3), (4, 3), (5, 3), (6, 3), (7, 3)] =
    [TileRequest.mk 0 0 (9/4), TileRequest.mk 1 0 (13/4), TileRequest.mk 2 0 (17/4), TileRequest.mk 3 0 (21/4), TileRequest.mk 4 0 (25/4), TileRequest.mk 5 0 (21/4), TileRequest.mk 6 0 (17/4), TileRequest.mk 7 0 (13/4), TileRequest.mk 0 1 (7/4), TileRequest.mk 1 1 (11/4), TileRequest.mk 2 1 (15/4), TileRequest.mk 3 1 (19/4), TileRequest.mk 4 1 (23/4), TileRequest.mk 5 1 (19/4), TileRequest.mk 6 1 (15/4), TileRequest.mk 7 1 (11/4), TileRequest.mk 0 2 (5/4), TileRequest.mk 1 2 (9/4), TileRequest.mk 2 2 (13/4), TileRequest.mk 3 2 (17/4), TileRequest.mk 4 2 (21/4), TileRequest.mk 5 2 (17/4), TileRequest.mk 6 2 (13/4), TileRequest.mk 7 2 (9/4), TileRequest.mk 0 3 (3/4), TileRequest.mk 1 3 (7/4), TileRequest.mk 2 3 (11/4), TileRequest.mk 3 3 (15/4), TileRequest.mk 4 3 (19/4), TileRequest.mk 5 3 (15/4), TileRequest.mk 6 3 (11/4), TileRequest.mk 7 3 (7/4)] := by
  norm_num [considerSlot, numTilesX, targetZoom, getD_replicate_false, wrapDist, distY, abs_of_nonpos, abs_of_nonneg]

lemma scanA2 : List.foldl
    (fun acc p => considerSlot 0 (List.replicate (numTilesX * numTilesX) false) acc p.1 p.2)
    [TileRequest.mk 0 0 (9/4), TileRequest.mk 1 0 (13/4), TileRequest.mk 2 0 (17/4), TileRequest.mk 3 0 (21/4), TileRequest.mk 4 0 (25/4), TileRequest.mk 5 0 (21/4), TileRequest.mk 6 0 (17/4), TileRequest.mk 7 0 (13/4), TileRequest.mk 0 1 (7/4), TileRequest.mk 1 1 (11/4), TileRequest.mk 2 1 (15/4), TileRequest.mk 3 1 (19/4), TileRequest.mk 4 1 (23/4), TileRequest.mk 5 1 (19/4), TileRequest.mk 6 1 (15/4), TileRequest.mk 7 1 (11/4), TileRequest.mk 0 2 (5/4), TileRequest.mk 1 2 (9/4), TileRequest.mk 2 2 (13/4), TileRequest.mk 3 2 (17/4), TileRequest.mk 4 2 (21/4), TileRequest.mk 5 2 (17/4), TileRequest.mk 6 2 (13/4), TileRequest.mk 7 2 (9/4), TileRequest.mk 0 3 (3/4), TileRequest.mk 1 3 (7/4), TileRequest.mk 2 3 (11/4), TileRequest.mk 3 3 (15/4), TileRequest.mk 4 3 (19/4), TileRequest.mk 5 3 (15/4), TileRequest.mk 6 3 (11/4), TileRequest.mk 7 3 (7/4)]
    [(0, 4), (1, 4), (2, 4), (3, 4), (4, 4), (5, 4), (6, 4), (7, 4), (0, 5), (1, 5), (2, 5), (3, 5), (4, 5), (5, 5), (6, 5), (7, 5)] =
    [TileRequest.mk 0 0 (9/4), TileRequest.mk 1 0 (13/4), TileRequest.mk 2 0 (17/4), TileRequest.mk 3 0 (21/4), TileRequest.mk 4 0 (25/4), TileRequest.mk 5 0 (21/4), TileRequest.mk 6 0 (17/4), TileRequest.mk 7 0 (13/4), TileRequest.mk 0 1 (7/4), TileRequest.mk 1 1 (11/4), TileRequest.mk 2 1 (15/4), TileRequest.mk 3 1 (19/4), TileRequest.mk 4 1 (23/4), TileRequest.mk 5 1 (19/4), TileRequest.mk 6 1 (15/4), TileRequest.mk 7 1 (11/4), TileRequest.mk 0 2 (5/4), TileRequest.mk 1 2 (9/4), TileRequest.mk 2 2 (13/4), TileRequest.mk 3 2 (17/4), TileRequest.mk 4 2 (21/4), TileRequest.mk 5 2 (17/4), TileRequest.mk 6 2 (13/4), TileRequest.mk 7 2 (9/4), TileRequest.mk 0 3 (3/4), TileRequest.mk 1 3 (7/4), TileRequest.mk 2 3 (11/4), TileRequest.mk 3 3 (15/4), TileRequest.mk 4 3 (19/4), TileRequest.mk 5 3 (15/4), TileRequest.mk 6 3 (11/4), TileRequest.mk 7 3 (7/4), TileRequest.mk 0 4 (1/4), TileRequest.mk 1 4 (5/4), TileRequest.mk 2 4 (9/4), TileRequest.mk 3 4 (13/4), TileRequest.mk 4 4 (17/4), TileRequest.mk 5 4 (13/4), TileRequest.mk 6 4 (9/4), TileRequest.mk 7 4 (5/4), TileRequest.mk 0 5 (1/4), TileRequest.mk 1 5 (5/4), TileRequest.mk 2 5 (9/4), TileRequest.mk 3 5 (13/4), TileRequest.mk 4 5 (17/4), TileRequest.mk 5 5 (13/4), TileRequest.mk 6 5 (9/4), TileRequest.mk 7 5 (5/4)] := by
  norm_num [considerSlot, numTilesX, targetZoom, getD_replicate_false, wrapDist, distY, abs_of_nonpos, abs_of_nonneg]

lemma scanA3 : List.foldl
    (fun acc p => considerSlot 0 (List.replicate (numTilesX * numTilesX) false) acc p.1 p.2)
    [TileRequest.mk 0 0 (9/4), TileRequest.mk 1 0 (13/4), TileRequest.mk 2 0 (17/4), TileRequest.mk 3 0 (21/4), TileRequest.mk 4 0 (25/4), TileRequest.mk 5 0 (21/4), TileRequest.mk 6 0 (17/4), TileRequest.mk 7 0 (13/4), TileRequest.mk 0 1 (7/4), TileRequest.mk 1 1 (11/4), TileRequest.mk 2 1 (15/4), TileRequest.mk 3 1 (19/4), TileRequest.mk 4 1 (23/4), TileRequest.mk 5 1 (19/4), TileRequest.mk 6 1 (15/4), TileRequest.mk 7 1 (11/4), TileRequest.mk 0 2 (5/4), TileRequest.mk 1 2 (9/4), TileRequest.mk 2 2 (13/4), TileRequest.mk 3 2 (17/4), TileRequest.mk 4 2 (21/4), TileRequest.mk 5 2 (17/4), TileRequest.mk 6 2 (13/4), TileRequest.mk 7 2 (9/4), TileRequest.mk 0 3 (3/4), TileRequest.mk 1 3 (7/4), TileRequest.mk 2 3 (11/4), TileRequest.mk 3 3 (15/4), TileRequest.mk 4 3 (19/4), TileRequest.mk 5 3 (15/4), TileRequest.mk 6 3 (11/4), TileRequest.mk 7 3 (7/4), TileRequest.mk 0 4 (1/4), TileRequest.mk 1 4 (5/4), TileRequest.mk 2 4 (9/4), TileRequest.mk 3 4 (13/4), TileRequest.mk 4 4 (17/4), TileRequest.mk 5 4 (13/4), TileRequest.mk 6 4 (9/4), TileRequest.mk 7 4 (5/4), TileRequest.mk 0 5 (1/4), TileRequest.mk 1 5 (5/4), TileRequest.mk 2 5 (9/4), TileRequest.mk 3 5 (13/4), TileRequest.mk 4 5 (17/4), TileRequest.mk 5 5 (13/4), TileRequest.mk 6 5 (9/4), TileRequest.mk 7 5 (5/4)]
    [(0, 6), (1, 6), (2, 6), (3, 6), (4, 6), (5, 6), (6, 6), (7, 6), (0, 7), (1, 7), (2, 7), (3, 7), (4, 7), (5, 7), (6, 7), (7, 7)] =
    [TileRequest.mk 0 0 (9/4), TileRequest.mk 1 0 (13/4), TileRequest.mk 2 0 (17/4), TileRequest.mk 3 0 (21/4), TileRequest.mk 4 0 (25/4), TileRequest.mk 5 0 (21/4), TileRequest.mk 6 0 (17/4), TileRequest.mk 7 0 (13/4), TileRequest.mk 0 1 (7/4), TileRequest.mk 1 1 (11/4), TileRequest.mk 2 1 (15/4), TileRequest.mk 3 1 (19/4), TileRequest.mk 4 1 (23/4), TileRequest.mk 5 1 (19/4), TileRequest.mk 6 1 (15/4), TileRequest.mk 7 1 (11/4), TileRequest.mk 0 2 (5/4), TileRequest.mk 1 2 (9/4), TileRequest.mk 2 2 (13/4), TileRequest.mk 3 2 (17/4), TileRequest.mk 4 2 (21/4), TileRequest.mk 5 2 (17/4), TileRequest.mk 6 2 (13/4), TileRequest.mk 7 2 (9/4), TileRequest.mk 0 3 (3/4), TileRequest.mk 1 3 (7/4), TileRequest.mk 2 3 (11/4), TileRequest.mk 3 3 (15/4), TileRequest.mk 4 3 (19/4), TileRequest.mk 5 3 (15/4), TileRequest.mk 6 3 (11/4), TileRequest.mk 7 3 (7/4), TileRequest.mk 0 4 (1/4), TileRequest.mk 1 4 (5/4), TileRequest.mk 2 4 (9/4), TileRequest.mk 3 4 (13/4), TileRequest.mk 4 4 (17/4), TileRequest.mk 5 4 (13/4), TileRequest.mk 6 4 (9/4), TileRequest.mk 7 4 (5/4), TileRequest.mk 0 5 (1/4), TileRequest.mk 1 5 (5/4), TileRequest.mk 2 5 (9/4), TileRequest.mk 3 5 (13/4), TileRequest.mk 4 5 (17/4), TileRequest.mk 5 5 (13/4), TileRequest.mk 6 5 (9/4), TileRequest.mk 7 5 (5/4), TileRequest.mk 0 6 (3/4), TileRequest.mk 1 6 (7/4), TileRequest.mk 2 6 (11/4), TileRequest.mk 3 6 (15/4), TileRequest.mk 4 6 (19/4), TileRequest.mk 5 6 (15/4), TileRequest.mk 6 6 (11/4), TileRequest.mk 7 6 (7/4), TileRequest.mk 0 7 (5/4), TileRequest.mk 1 7 (9/4), TileRequest.mk 2 7 (13/4), TileRequest.mk 3 7 (17/4), TileRequest.mk 4 7 (21/4), TileRequest.mk 5 7 (17/4), TileRequest.mk 6 7 (13/4), TileRequest.mk 7 7 (9/4)] := by
  norm_num [considerSlot, numTilesX, targetZoom, getD_replicate_false, wrapDist, distY, abs_of_nonpos, abs_of_nonneg]

lemma scanA_eq : scan 0 (List.replicate (numTilesX * numTilesX) false)
    [] =
    [TileRequest.mk 0 0 (9/4), TileRequest.mk 1 0 (13/4), TileRequest.mk 2 0 (17/4), TileRequest.mk 3 0 (21/4), TileRequest.mk 4 0 (25/4), TileRequest.mk 5 0 (21/4), TileRequest.mk 6 0 (17/4), TileRequest.mk 7 0 (13/4), TileRequest.mk 0 1 (7/4), TileRequest.mk 1 1 (11/4), TileRequest.mk 2 1 (15/4), TileRequest.mk 3 1 (19/4), TileRequest.mk 4 1 (23/4), TileRequest.mk 5 1 (19/4), TileRequest.mk 6 1 (15/4), TileRequest.mk 7 1 (11/4), TileRequest.mk 0 2 (5/4), TileRequest.mk 1 2 (9/4), TileRequest.mk 2 2 (13/4), TileRequest.mk 3 2 (17/4), TileRequest.mk 4 2 (21/4), TileRequest.mk 5 2 (17/4), TileRequest.mk 6 2 (13/4), TileRequest.mk 7 2 (9/4), TileRequest.mk 0 3 (3/4), TileRequest.mk 1 3 (7/4), TileRequest.mk 2 3 (11/4), TileRequest.mk 3 3 (15/4), TileRequest.mk 4 3 (19/4), TileRequest.mk 5 3 (15/4), TileRequest.mk 6 3 (11/4), TileRequest.mk 7 3 (7/4), TileRequest.mk 0 4 (1/4), TileRequest.mk 1 4 (5/4), TileRequest.mk 2 4 (9/4), TileRequest.mk 3 4 (13/4), TileRequest.mk 4 4 (17/4), TileRequest.mk 5 4 (13/4), TileRequest.mk 6 4 (9/4), TileRequest.mk 7 4 (5/4), TileRequest.mk 0 5 (1/4), TileRequest.mk 1 5 (5/4), TileRequest.mk 2 5 (9/4), TileRequest.mk 3 5 (13/4), TileRequest.mk 4 5 (17/4), TileRequest.mk 5 5 (13/4), TileRequest.mk 6 5 (9/4), TileRequest.mk 7 5 (5/4), TileRequest.mk 0 6 (3/4), TileRequest.mk 1 6 (7/4), TileRequest.mk 2 6 (11/4), TileRequest.mk 3 6 (15/4), TileRequest.mk 4 6 (19/4), TileRequest.mk 5 6 (15/4), TileRequest.mk 6 6 (11/4), TileRequest.mk 7 6 (7/4), TileRequest.mk 0 7 (5/4), TileRequest.mk 1 7 (9/4), TileRequest.mk 2 7 (13/4), TileRequest.mk 3 7 (17/4), TileRequest.mk 4 7 (21/4), TileRequest.mk 5 7 (17/4), TileRequest.mk 6 7 (13/4), TileRequest.mk 7 7 (9/4)] := by
  unfold scan
  rw [allSlotsGroups]
  simp only [List.foldl_append]
  rw [scanA0, scanA1, scanA2, scanA3]

lemma sortA0 : List.foldr (List.orderedInsert distLE)
    []
    [TileRequest.mk 0 6 (3/4), TileRequest.mk 1 6 (7/4), TileRequest.mk 2 6 (11/4), TileRequest.mk 3 6 (15/4), TileRequest.mk 4 6 (19/4), TileRequest.mk 5 6 (15/4), TileRequest.mk 6 6 (11/4), TileRequest.mk 7 6 (7/4), TileRequest.mk 0 7 (5/4), TileRequest.mk 1 7 (9/4), TileRequest.mk 2 7 (13/4), TileRequest.mk 3 7 (17/4), TileRequest.mk 4 7 (21/4), TileRequest.mk 5 7 (17/4), TileRequest.mk 6 7 (13/4), TileRequest.mk 7 7 (9/4)] =
    [TileRequest.mk 0 6 (3/4), TileRequest.mk 0 7 (5/4), TileRequest.mk 1 6 (7/4), TileRequest.mk 7 6 (7/4), TileRequest.mk 1 7 (9/4), TileRequest.mk 7 7 (9/4), TileRequest.mk 2 6 (11/4), TileRequest.mk 6 6 (11/4), TileRequest.mk 2 7 (13/4), TileRequest.mk 6 7 (13/4), TileRequest.mk 3 6 (15/4), TileRequest.mk 5 6 (15/4), TileRequest.mk 3 7 (17/4), TileRequest.mk 5 7 (17/4), TileRequest.mk 4 6 (19/4), TileRequest.mk 4 7 (21/4)] := by
  norm_num [distLE]

lemma sortA1 : List.foldr (List.orderedInsert distLE)
    [TileRequest.mk 0 6 (3/4), TileRequest.mk 0 7 (5/4), TileRequest.mk 1 6 (7/4), TileRequest.mk 7 6 (7/4), TileRequest.mk 1 7 (9/4), TileRequest.mk 7 7 (9/4), TileRequest.mk 2 6 (11/4), TileRequest.mk 6 6 (11/4), TileRequest.mk 2 7 (13/4), TileRequest.mk 6 7 (13/4), TileRequest.mk 3 6 (15/4), TileRequest.mk 5 6 (15/4), TileRequest.mk 3 7 (17/4), TileRequest.mk 5 7 (17/4), TileRequest.mk 4 6 (19/4), TileRequest.mk 4 7 (21/4)]
    [TileRequest.mk 0 4 (1/4), TileRequest.mk 1 4 (5/4), TileRequest.mk 2 4 (9/4), TileRequest.mk 3 4 (13/4), TileRequest.mk 4 4 (17/4), TileRequest.mk 5 4 (13/4), TileRequest.mk 6 4 (9/4), TileRequest.mk 7 4 (5/4), TileRequest.mk 0 5 (1/4), TileRequest.mk 1 5 (5/4), TileRequest.mk 2 5 (9/4), TileRequest.mk 3 5 (13/4), TileRequest.mk 4 5 (17/4), TileRequest.mk 5 5 (13/4), TileRequest.mk 6 5 (9/4), TileRequest.mk 7 5 (5/4)] =
    [TileRequest.mk 0 4 (1/4), TileRequest.mk 0 5 (1/4), TileRequest.mk 0 6 (3/4), TileRequest.mk 1 4 (5/4), TileRequest.mk 7 4 (5/4), TileRequest.mk 1 5 (5/4), TileRequest.mk 7 5 (5/4), TileRequest.mk 0 7 (5/4), TileRequest.mk 1 6 (7/4), TileRequest.mk 7 6 (7/4), TileRequest.mk 2 4 (9/4), TileRequest.mk 6 4 (9/4), TileRequest.mk 2 5 (9/4), TileRequest.mk 6 5 (9/4), TileRequest.mk 1 7 (9/4), TileRequest.mk 7 7 (9/4), TileRequest.mk 2 6 (11/4), TileRequest.mk 6 6 (11/4), TileRequest.mk 3 4 (13/4), TileRequest.mk 5 4 (13/4), TileRequest.mk 3 5 (13/4), TileRequest.mk 5 5 (13/4), TileRequest.mk 2 7 (13/4), TileRequest.mk 6 7 (13/4), TileRequest.mk 3 6 (15/4), TileRequest.mk 5 6 (15/4), TileRequest.mk 4 4 (17/4), TileRequest.mk 4 5 (17/4), TileRequest.mk 3 7 (17/4), TileRequest.mk 5 7 (17/4), TileRequest.mk 4 6 (19/4), TileRequest.mk 4 7 (21/4)] := by
  norm_num [distLE]

lemma sortA2 : List.foldr (List.orderedInsert distLE)
    [TileRequest.mk 0 4 (1/4), TileRequest.mk 0 5 (1/4), TileRequest.mk 0 6 (3/4), TileRequest.mk 1 4 (5/4), TileRequest.mk 7 4 (5/4), TileRequest.mk 1 5 (5/4), TileRequest.mk 7 5 (5/4), TileRequest.mk 0 7 (5/4), TileRequest.mk 1 6 (7/4), TileRequest.mk 7 6 (7/4), TileRequest.mk 2 4 (9/4), TileRequest.mk 6 4 (9/4), TileRequest.mk 2 5 (9/4), TileRequest.mk 6 5 (9/4), TileRequest.mk 1 7 (9/4), TileRequest.mk 7 7 (9/4), TileRequest.mk 2 6 (11/4), TileRequest.mk 6 6 (11/4), TileRequest.mk 3 4 (13/4), TileRequest.mk 5 4 (13/4), TileRequest.mk 3 5 (13/4), TileRequest.mk 5 5 (13/4), TileRequest.mk 2 7 (13/4), TileRequest.mk 6 7 (13/4), TileRequest.mk 3 6 (15/4), TileRequest.mk 5 6 (15/4), TileRequest.mk 4 4 (17/4), TileRequest.mk 4 5 (17/4), TileRequest.mk 3 7 (17/4), TileRequest.mk 5 7 (17/4), TileRequest.mk 4 6 (19/4), TileRequest.mk 4 7 (21/4)]
    [TileRequest.mk 0 2 (5/4), TileRequest.mk 1 2 (9/4), TileRequest.mk 2 2 (13/4), TileRequest.mk 3 2 (17/4), TileRequest.mk 4 2 (21/4), TileRequest.mk 5 2 (17/4), TileRequest.mk 6 2 (13/4), TileRequest.mk 7 2 (9/4), TileRequest.mk 0 3 (3/4), TileRequest.mk 1 3 (7/4), TileRequest.mk 2 3 (11/4), TileRequest.mk 3 3 (15/4), TileRequest.mk 4 3 (19/4), TileRequest.mk 5 3 (15/4), TileRequest.mk 6 3 (11/4), TileRequest.mk 7 3 (7/4)] =
    [TileRequest.mk 0 4 (1/4), TileRequest.mk 0 5 (1/4), TileRequest.mk 0 3 (3/4), TileRequest.mk 0 6 (3/4), TileRequest.mk 0 2 (5/4), TileRequest.mk 1 4 (5/4), TileRequest.mk 7 4 (5/4), TileRequest.mk 1 5 (5/4), TileRequest.mk 7 5 (5/4), TileRequest.mk 0 7 (5/4), TileRequest.mk 1 3 (7/4), TileRequest.mk 7 3 (7/4), TileRequest.mk 1 6 (7/4), TileRequest.mk 7 6 (7/4), TileRequest.mk 1 2 (9/4), TileRequest.mk 7 2 (9/4), TileRequest.mk 2 4 (9/4), TileRequest.mk 6 4 (9/4), TileRequest.mk 2 5 (9/4), TileRequest.mk 6 5 (9/4), TileRequest.mk 1 7 (9/4), TileRequest.mk 7 7 (9/4), TileRequest.mk 2 3 (11/4), TileRequest.mk 6 3 (11/4), TileRequest.mk 2 6 (11/4), TileRequest.mk 6 6 (11/4), TileRequest.mk 2 2 (13/4), TileRequest.mk 6 2 (13/4), TileRequest.mk 3 4 (13/4), TileRequest.mk 5 4 (13/4), TileRequest.mk 3 5 (13/4), TileRequest.mk 5 5 (13/4), TileRequest.mk 2 7 (13/4), TileRequest.mk 6 7 (13/4), TileRequest.mk 3 3 (15/4), TileRequest.mk 5 3 (15/4), TileRequest.mk 3 6 (15/4), TileRequest.mk 5 6 (15/4), TileRequest.mk 3 2 (17/4), TileRequest.mk 5 2 (17/4), TileRequest.mk 4 4 (17/4), TileRequest.mk 4 5 (17/4), TileRequest.mk 3 7 (17/4), TileRequest.mk 5 7 (17/4), TileRequest.mk 4 3 (19/4), TileRequest.mk 4 6 (19/4), TileRequest.mk 4 2 (21/4), TileRequest.mk 4 7 (21/4)] := by
  norm_num [distLE]

lemma sortA3 : List.foldr (List.orderedInsert distLE)
    [TileRequest.mk 0 4 (1/4), TileRequest.mk 0 5 (1/4), TileRequest.mk 0 3 (3/4), TileRequest.mk 0 6 (3/4), TileRequest.mk 0 2 (5/4), TileRequest.mk 1 4 (5/4), TileRequest.mk 7 4 (5/4), TileRequest.mk 1 5 (5/4), TileRequest.mk 7 5 (5/4), TileRequest.mk 0 7 (5/4), TileRequest.mk 1 3 (7/4), TileRequest.mk 7 3 (7/4), TileRequest.mk 1 6 (7/4), TileRequest.mk 7 6 (7/4), TileRequest.mk 1 2 (9/4), TileRequest.mk 7 2 (9/4), TileRequest.mk 2 4 (9/4), TileRequest.mk 6 4 (9/4), TileRequest.mk 2 5 (9/4), TileRequest.mk 6 5 (9/4), TileRequest.mk 1 7 (9/4), TileRequest.mk 7 7 (9/4), TileRequest.mk 2 3 (11/4), TileRequest.mk 6 3 (11/4), TileRequest.mk 2 6 (11/4), TileRequest.mk 6 6 (11/4), TileRequest.mk 2 2 (13/4), TileRequest.mk 6 2 (13/4), TileRequest.mk 3 4 (13/4), TileRequest.mk 5 4 (13/4), TileRequest.mk 3 5 (13/4), TileRequest.mk 5 5 (13/4), TileRequest.mk 2 7 (13/4), TileRequest.mk 6 7 (13/4), TileRequest.mk 3 3 (15/4), TileRequest.mk 5 3 (15/4), TileRequest.mk 3 6 (15/4), TileRequest.mk 5 6 (15/4), TileRequest.mk 3 2 (17/4), TileRequest.mk 5 2 (17/4), TileRequest.mk 4 4 (17/4), TileRequest.mk 4 5 (17/4), TileRequest.mk 3 7 (17/4), TileRequest.mk 5 7 (17/4), TileRequest.mk 4 3 (19/4), TileRequest.mk 4 6 (19/4), TileRequest.mk 4 2 (21/4), TileRequest.mk 4 7 (21/4)]
    [TileRequest.mk 0 0 (9/4), TileRequest.mk 1 0 (13/4), TileRequest.mk 2 0 (17/4), TileRequest.mk 3 0 (21/4), TileRequest.mk 4 0 (25/4), TileRequest.mk 5 0 (21/4), TileRequest.mk 6 0 (17/4), TileRequest.mk 7 0 (13/4), TileRequest.mk 0 1 (7/4), TileRequest.mk 1 1 (11/4), TileRequest.mk 2 1 (15/4), TileRequest.mk 3 1 (19/4), TileRequest.mk 4 1 (23/4), TileRequest.mk 5 1 (19/4), TileRequest.mk 6 1 (15/4), TileRequest.mk 7 1 (11/4)] =
    [TileRequest.mk 0 4 (1/4), TileRequest.mk 0 5 (1/4), TileRequest.mk 0 3 (3/4), TileRequest.mk 0 6 (3/4), TileRequest.mk 0 2 (5/4), TileRequest.mk 1 4 (5/4), TileRequest.mk 7 4 (5/4), TileRequest.mk 1 5 (5/4), TileRequest.mk 7 5 (5/4), TileRequest.mk 0 7 (5/4), TileRequest.mk 0 1 (7/4), TileRequest.mk 1 3 (7/4), TileRequest.mk 7 3 (7/4), TileRequest.mk 1 6 (7/4), TileRequest.mk 7 6 (7/4), TileRequest.mk 0 0 (9/4), TileRequest.mk 1 2 (9/4), TileRequest.mk 7 2 (9/4), TileRequest.mk 2 4 (9/4), TileRequest.mk 6 4 (9/4), TileRequest.mk 2 5 (9/4), TileRequest.mk 6 5 (9/4), TileRequest.mk 1 7 (9/4), TileRequest.mk 7 7 (9/4), TileRequest.mk 1 1 (11/4), TileRequest.mk 7 1 (11/4), TileRequest.mk 2 3 (11/4), TileRequest.mk 6 3 (11/4), TileRequest.mk 2 6 (11/4), TileRequest.mk 6 6 (11/4), TileRequest.mk 1 0 (13/4), TileRequest.mk 7 0 (13/4), TileRequest.mk 2 2 (13/4), TileRequest.mk 6 2 (13/4), TileRequest.mk 3 4 (13/4), TileRequest.mk 5 4 (13/4), TileRequest.mk 3 5 (13/4), TileRequest.mk 5 5 (13/4), TileRequest.mk 2 7 (13/4), TileRequest.mk 6 7 (13/4), TileRequest.mk 2 1 (15/4), TileRequest.mk 6 1 (15/4), TileRequest.mk 3 3 (15/4), TileRequest.mk 5 3 (15/4), TileRequest.mk 3 6 (15/4), TileRequest.mk 5 6 (15/4), TileRequest.mk 2 0 (17/4), TileRequest.mk 6 0 (17/4), TileRequest.mk 3 2 (17/4), TileRequest.mk 5 2 (17/4), TileRequest.mk 4 4 (17/4), TileRequest.mk 4 5 (17/4), TileRequest.mk 3 7 (17/4), TileRequest.mk 5 7 (17/4), TileRequest.mk 3 1 (19/4), TileRequest.mk 5 1 (19/4), TileRequest.mk 4 3 (19/4), TileRequest.mk 4 6 (19/4), TileRequest.mk 3 0 (21/4), TileRequest.mk 5 0 (21/4), TileRequest.mk 4 2 (21/4), TileRequest.mk 4 7 (21/4), TileRequest.mk 4 1 (23/4), TileRequest.mk 4 0 (25/4)] := by
  norm_num [distLE]

lemma sortA_eq : List.insertionSort distLE
    [TileRequest.mk 0 0 (9/4), TileRequest.mk 1 0 (13/4), TileRequest.mk 2 0 (17/4), TileRequest.mk 3 0 (21/4), TileRequest.mk 4 0 (25/4), TileRequest.mk 5 0 (21/4), TileRequest.mk 6 0 (17/4), TileRequest.mk 7 0 (13/4), TileRequest.mk 0 1 (7/4), TileRequest.mk 1 1 (11/4), TileRequest.mk 2 1 (15/4), TileRequest.mk 3 1 (19/4), TileRequest.mk 4 1 (23/4), TileRequest.mk 5 1 (19/4), TileRequest.mk 6 1 (15/4), TileRequest.mk 7 1 (11/4), TileRequest.mk 0 2 (5/4), TileRequest.mk 1 2 (9/4), TileRequest.mk 2 2 (13/4), TileRequest.mk 3 2 (17/4), TileRequest.mk 4 2 (21/4), TileRequest.mk 5 2 (17/4), TileRequest.mk 6 2 (13/4), TileRequest.mk 7 2 (9/4), TileRequest.mk 0 3 (3/4), TileRequest.mk 1 3 (7/4), TileRequest.mk 2 3 (11/4), TileRequest.mk 3 3 (15/4), TileRequest.mk 4 3 (19/4), TileRequest.mk 5 3 (15/4), TileRequest.mk 6 3 (11/4), TileRequest.mk 7 3 (7/4), TileRequest.mk 0 4 (1/4), TileRequest.mk 1 4 (5/4), TileRequest.mk 2 4 (9/4), TileRequest.mk 3 4 (13/4), TileRequest.mk 4 4 (17/4), TileRequest.mk 5 4 (13/4), TileRequest.mk 6 4 (9/4), TileRequest.mk 7 4 (5/4), TileRequest.mk 0 5 (1/4), TileRequest.mk 1 5 (5/4), TileRequest.mk 2 5 (9/4), TileRequest.mk 3 5 (13/4), TileRequest.mk 4 5 (17/4), TileRequest.mk 5 5 (13/4), TileRequest.mk 6 5 (9/4), TileRequest.mk 7 5 (5/4), TileRequest.mk 0 6 (3/4), TileRequest.mk 1 6 (7/4), TileRequest.mk 2 6 (11/4), TileRequest.mk 3 6 (15/4), TileRequest.mk 4 6 (19/4), TileRequest.mk 5 6 (15/4), TileRequest.mk 6 6 (11/4), TileRequest.mk 7 6 (7/4), TileRequest.mk 0 7 (5/4), TileRequest.mk 1 7 (9/4), TileRequest.mk 2 7 (13/4), TileRequest.mk 3 7 (17/4), TileRequest.mk 4 7 (21/4), TileRequest.mk 5 7 (17/4), TileRequest.mk 6 7 (13/4), TileRequest.mk 7 7 (9/4)] =
    [TileRequest.mk 0 4 (1/4), TileRequest.mk 0 5 (1/4), TileRequest.mk 0 3 (3/4), TileRequest.mk 0 6 (3/4), TileRequest.mk 0 2 (5/4), TileRequest.mk 1 4 (5/4), TileRequest.mk 7 4 (5/4), TileRequest.mk 1 5 (5/4), TileRequest.mk 7 5 (5/4), TileRequest.mk 0 7 (5/4), TileRequest.mk 0 1 (7/4), TileRequest.mk 1 3 (7/4), TileRequest.mk 7 3 (7/4), TileRequest.mk 1 6 (7/4), TileRequest.mk 7 6 (7/4), TileRequest.mk 0 0 (9/4), TileRequest.mk 1 2 (9/4), TileRequest.mk 7 2 (9/4), TileRequest.mk 2 4 (9/4), TileRequest.mk 6 4 (9/4), TileRequest.mk 2 5 (9/4), TileRequest.mk 6 5 (9/4), TileRequest.mk 1 7 (9/4), TileRequest.mk 7 7 (9/4), TileRequest.mk 1 1 (11/4), TileRequest.mk 7 1 (11/4), TileRequest.mk 2 3 (11/4), TileRequest.mk 6 3 (11/4), TileRequest.mk 2 6 (11/4), TileRequest.mk 6 6 (11/4), TileRequest.mk 1 0 (13/4), TileRequest.mk 7 0 (13/4), TileRequest.mk 2 2 (13/4), TileRequest.mk 6 2 (13/4), TileRequest.mk 3 4 (13/4), TileRequest.mk 5 4 (13/4), TileRequest.mk 3 5 (13/4), TileRequest.mk 5 5 (13/4), TileRequest.mk 2 7 (13/4), TileRequest.mk 6 7 (13/4), TileRequest.mk 2 1 (15/4), TileRequest.mk 6 1 (15/4), TileRequest.mk 3 3 (15/4), TileRequest.mk 5 3 (15/4), TileRequest.mk 3 6 (15/4), TileRequest.mk 5 6 (15/4), TileRequest.mk 2 0 (17/4), TileRequest.mk 6 0 (17/4), TileRequest.mk 3 2 (17/4), TileRequest.mk 5 2 (17/4), TileRequest.mk 4 4 (17/4), TileRequest.mk 4 5 (17/4), TileRequest.mk 3 7 (17/4), TileRequest.mk 5 7 (17/4), TileRequest.mk 3 1 (19/4), TileRequest.mk 5 1 (19/4), TileRequest.mk 4 3 (19/4), TileRequest.mk 4 6 (19/4), TileRequest.mk 3 0 (21/4), TileRequest.mk 5 0 (21/4), TileRequest.mk 4 2 (21/4), TileRequest.mk 4 7 (21/4), TileRequest.mk 4 1 (23/4), TileRequest.mk 4 0 (25/4)] := by
  rw [insertionSort_eq_foldr]
  rw [show ([TileRequest.mk 0 0 (9/4), TileRequest.mk 1 0 (13/4), TileRequest.mk 2 0 (17/4), TileRequest.mk 3 0 (21/4), TileRequest.mk 4 0 (25/4), TileRequest.mk 5 0 (21/4), TileRequest.mk 6 0 (17/4), TileRequest.mk 7 0 (13/4), TileRequest.mk 0 1 (7/4), TileRequest.mk 1 1 (11/4), TileRequest.mk 2 1 (15/4), TileRequest.mk 3 1 (19/4), TileRequest.mk 4 1 (23/4), TileRequest.mk 5 1 (19/4), TileRequest.mk 6 1 (15/4), TileRequest.mk 7 1 (11/4), TileRequest.mk 0 2 (5/4), TileRequest.mk 1 2 (9/4), TileRequest.mk 2 2 (13/4), TileRequest.mk 3 2 (17/4), TileRequest.mk 4 2 (21/4), TileRequest.mk 5 2 (17/4), TileRequest.mk 6 2 (13/4), TileRequest.mk 7 2 (9/4), TileRequest.mk 0 3 (3/4), TileRequest.mk 1 3 (7/4), TileRequest.mk 2 3 (11/4), TileRequest.mk 3 3 (15/4), TileRequest.mk 4 3 (19/4), TileRequest.mk 5 3 (15/4), TileRequest.mk 6 3 (11/4), TileRequest.mk 7 3 (7/4), TileRequest.mk 0 4 (1/4), TileRequest.mk 1 4 (5/4), TileRequest.mk 2 4 (9/4), TileRequest.mk 3 4 (13/4), TileRequest.mk 4 4 (17/4), TileRequest.mk 5 4 (13/4), TileRequest.mk 6 4 (9/4), TileRequest.mk 7 4 (5/4), TileRequest.mk 0 5 (1/4), TileRequest.mk 1 5 (5/4), TileRequest.mk 2 5 (9/4), TileRequest.mk 3 5 (13/4), TileRequest.mk 4 5 (17/4), TileRequest.mk 5 5 (13/4), TileRequest.mk 6 5 (9/4), TileRequest.mk 7 5 (5/4), TileRequest.mk 0 6 (3/4), TileRequest.mk 1 6 (7/4), TileRequest.mk 2 6 (11/4), TileRequest.mk 3 6 (15/4), TileRequest.mk 4 6 (19/4), TileRequest.mk 5 6 (15/4), TileRequest.mk 6 6 (11/4), TileRequest.mk 7 6 (7/4), TileRequest.mk 0 7 (5/4), TileRequest.mk 1 7 (9/4), TileRequest.mk 2 7 (13/4), TileRequest.mk 3 7 (17/4), TileRequest.mk 4 7 (21/4), TileRequest.mk 5 7 (17/4), TileRequest.mk 6 7 (13/4), TileRequest.mk 7 7 (9/4)] : List TileRequest) =
    [TileRequest.mk 0 0 (9/4), TileRequest.mk 1 0 (13/4), TileRequest.mk 2 0 (17/4), TileRequest.mk 3 0 (21/4), TileRequest.mk 4 0 (25/4), TileRequest.mk 5 0 (21/4), TileRequest.mk 6 0 (17/4), TileRequest.mk 7 0 (13/4), TileRequest.mk 0 1 (7/4), TileRequest.mk 1 1 (11/4), TileRequest.mk 2 1 (15/4), TileRequest.mk 3 1 (19/4), TileRequest.mk 4 1 (23/4), TileRequest.mk 5 1 (19/4), TileRequest.mk 6 1 (15/4), TileRequest.mk 7 1 (11/4)] ++
    ([TileRequest.mk 0 2 (5/4), TileRequest.mk 1 2 (9/4), TileRequest.mk 2 2 (13/4), TileRequest.mk 3 2 (17/4), TileRequest.mk 4 2 (21/4), TileRequest.mk 5 2 (17/4), TileRequest.mk 6 2 (13/4), TileRequest.mk 7 2 (9/4), TileRequest.mk 0 3 (3/4), TileRequest.mk 1 3 (7/4), TileRequest.mk 2 3 (11/4), TileRequest.mk 3 3 (15/4), TileRequest.mk 4 3 (19/4), TileRequest.mk 5 3 (15/4), TileRequest.mk 6 3 (11/4), TileRequest.mk 7 3 (7/4)] ++
    ([TileRequest.mk 0 4 (1/4), TileRequest.mk 1 4 (5/4), TileRequest.mk 2 4 (9/4), TileRequest.mk 3 4 (13/4), TileRequest.mk 4 4 (17/4), TileRequest.mk 5 4 (13/4), TileRequest.mk 6 4 (9/4), TileRequest.mk 7 4 (5/4), TileRequest.mk 0 5 (1/4), TileRequest.mk 1 5 (5/4), TileRequest.mk 2 5 (9/4), TileRequest.mk 3 5 (13/4), TileRequest.mk 4 5 (17/4), TileRequest.mk 5 5 (13/4), TileRequest.mk 6 5 (9/4), TileRequest.mk 7 5 (5/4)] ++
    [TileRequest.mk 0 6 (3/4), TileRequest.mk 1 6 (7/4), TileRequest.mk 2 6 (11/4), TileRequest.mk 3 6 (15/4), TileRequest.mk 4 6 (19/4), TileRequest.mk 5 6 (15/4), TileRequest.mk 6 6 (11/4), TileRequest.mk 7 6 (7/4), TileRequest.mk 0 7 (5/4), TileRequest.mk 1 7 (9/4), TileRequest.mk 2 7 (13/4), TileRequest.mk 3 7 (17/4), TileRequest.mk 4 7 (21/4), TileRequest.mk 5 7 (17/4), TileRequest.mk 6 7 (13/4), TileRequest.mk 7 7 (9/4)])) from rfl]
  simp only [List.foldr_append]
  rw [sortA0, sortA1, sortA2, sortA3]

end YandexMap

namespace YandexMap

/-! ### The drain loop at the concurrency cap, and small arithmetic facts -/

lemma drainAux_at_cap (q : List TileRequest) :
    drainAux MAX_CONCURRENT_REQUESTS q = ([], q) := by
  cases q with
  | nil => rfl
  | cons t rest => simp [drainAux]

lemma processQueue_at_cap {s : MState}
    (h : s.activeRequests = MAX_CONCURRENT_REQUESTS) : processQueue s = s := by
  unfold processQueue
  by_cases hd : s.isDestroyed
  · rw [if_pos hd]
  · rw [if_neg hd]
    have hq : drainAux s.activeRequests s.queue = ([], s.queue) := by
      rw [h]; exact drainAux_at_cap _
    rw [hq]
    simp

lemma recompute_activeRequests (lon : ℚ) (s : MState) :
    (recompute lon s).activeRequests = s.activeRequests := rfl

lemma recompute_isDestroyed (lon : ℚ) (s : MState) :
    (recompute lon s).isDestroyed = s.isDestroyed := rfl

lemma recompute_inFlight (lon : ℚ) (s : MState) :
    (recompute lon s).inFlight = s.inFlight := rfl

lemma update_at_cap {lon : ℚ} {s : MState}
    (ha : s.activeRequests = MAX_CONCURRENT_REQUESTS) (hd : s.isDestroyed = false) :
    update lon s = recompute lon s := by
  unfold update
  rw [if_neg (by simp [hd])]
  exact processQueue_at_cap (by rw [recompute_activeRequests, ha])

lemma wrapDist_nonneg {c : ℚ} (hc0 : 0 ≤ c) (hc : c < (numTilesX : ℚ)) {x : ℕ}
    (hx : x < numTilesX) : 0 ≤ wrapDist c x := by
  have hxq : (x : ℚ) ≤ (numTilesX : ℚ) - 1 := by
    have : (x : ℚ) + 1 ≤ (numTilesX : ℚ) := by exact_mod_cast Nat.succ_le_of_lt hx
    linarith
  have habs : |(x : ℚ) - c| < (numTilesX : ℚ) := by
    rw [abs_sub_lt_iff]
    constructor <;> linarith [Nat.cast_nonneg (α := ℚ) x]
  unfold wrapDist
  by_cases h : |(x : ℚ) - c| > (numTilesX : ℚ) / 2
  · rw [if_pos h]; linarith
  · rw [if_neg h]; exact abs_nonneg _

lemma numTilesX_castQ : ((numTilesX : ℕ) : ℚ) = 8 := by
  norm_num [numTilesX, targetZoom]

lemma distY_ge_half (y : ℕ) : 1 / 2 ≤ distY y := by
  unfold distY
  rw [numTilesX_castQ]
  rcases le_or_lt ((y : ℚ)) 4 with h | h
  · rw [abs_of_nonpos (by linarith)]
    linarith
  · have h5 : (5 : ℚ) ≤ (y : ℚ) := by
      have h4 : (4 : ℕ) < y := by exact_mod_cast h
      exact_mod_cast Nat.succ_le_of_lt h4
    rw [abs_of_nonneg (by linarith)]
    linarith

lemma small_dist_slot {x y : ℕ} (hx : x < numTilesX)
    (hd : wrapDist 0 x + distY y * 0.5 ≤ 1 / 4) : x = 0 ∧ (y = 4 ∨ y = 5) := by
  have h0 : (0 : ℚ) ≤ wrapDist 0 x :=
    wrapDist_nonneg le_rfl (by norm_num [numTilesX, targetZoom]) hx
  have h1 : (1 : ℚ) / 2 ≤ distY y := distY_ge_half y
  have hw : wrapDist 0 x = 0 := le_antisymm (by linarith) h0
  have hy : distY y = 1 / 2 := le_antisymm (by linarith) h1
  constructor
  · -- wrapDist 0 x = 0 forces x = 0 for x < numTilesX
    unfold wrapDist at hw
    rw [sub_zero, abs_of_nonneg (Nat.cast_nonneg x)] at hw
    by_cases hgt : (x : ℚ) > (numTilesX : ℚ) / 2
    · rw [if_pos hgt] at hw
      have : (x : ℚ) = (numTilesX : ℚ) := by linarith
      have : x = numTilesX := by exact_mod_cast this
      omega
    · rw [if_neg hgt] at hw
      exact_mod_cast hw
  · -- distY y = 1/2 forces y = 4 or y = 5
    unfold distY at hy
    rcases abs_eq (by norm_num : (0:ℚ) ≤ 1/2) |>.1 hy with h | h
    · right
      have : (y : ℚ) = 5 := by norm_num [numTilesX, targetZoom] at h; linarith
      exact_mod_cast this
    · left
      have : (y : ℚ) = 4 := by norm_num [numTilesX, targetZoom] at h; linarith
      exact_mod_cast this

/-! ### The center index of the two longitudes used in the executions -/

lemma centerX_neg180 : centerXOf (-180) = 0 := by
  norm_num [centerXOf]

lemma centerX_neg90 : centerXOf (-90) = 2 := by
  norm_num [centerXOf, numTilesX, targetZoom]

/-! ### Facts about the concrete state `exS1` -/

lemma exS1_inFlight : exS1.inFlight =
    [TileRequest.mk 0 4 (1/4), TileRequest.mk 0 5 (1/4),
     TileRequest.mk 0 3 (3/4), TileRequest.mk 0 6 (3/4)] := rfl

lemma exS1_queue_dist_lb : ∀ t ∈ exS1.queue, (5 : ℚ) / 4 ≤ t.dist := by
  norm_num [exS1]

lemma exS1_queue_no04 : (0, 4) ∉ exS1.queue.map slotOf := by
  norm_num [exS1, slotOf]

lemma exS1_queue_mem40 : TileRequest.mk 4 0 (25/4) ∈ exS1.queue := by
  norm_num [exS1]

end YandexMap

namespace YandexMap

/-! ### The first update call, evaluated -/

lemma update1_eq : update (-180) initState = exS1 := by
  unfold update
  rw [if_neg (by simp [initState])]
  unfold recompute
  rw [centerX_neg180]
  have h1 : scan 0 initState.tilesLoaded initState.queue =
      scan 0 (List.replicate (numTilesX * numTilesX) false) [] := rfl
  rw [h1, scanA_eq, sortA_eq]
  unfold processQueue
  rw [if_neg (by simp [initState])]
  norm_num [drainAux, MAX_CONCURRENT_REQUESTS, initState, exS1]

lemma reach_exS1 : Reachable exS1 := by
  have h := Step.doUpdate (-180) initState
  rw [update1_eq] at h
  exact Relation.ReflTransGen.single h

/-! ### The second update call, analysed at the concurrency cap -/

lemma exS1_at_cap : exS1.activeRequests = MAX_CONCURRENT_REQUESTS := rfl

lemma exS1_not_destroyed : exS1.isDestroyed = false := rfl

lemma updExS1_eq (lon : ℚ) : update lon exS1 = recompute lon exS1 :=
  update_at_cap exS1_at_cap exS1_not_destroyed

lemma updExS1_inFlight (lon : ℚ) : (update lon exS1).inFlight = exS1.inFlight := by
  rw [updExS1_eq]
  exact recompute_inFlight lon exS1

lemma updExS1_queue : (update (-180) exS1).queue =
    List.insertionSort distLE
      (scan 0 (List.replicate (numTilesX * numTilesX) false) exS1.queue) := by
  rw [updExS1_eq]
  unfold recompute
  rw [centerX_neg180]
  rfl

lemma updExS1_queue90 : (update (-90) exS1).queue =
    List.insertionSort distLE
      (scan 2 (List.replicate (numTilesX * numTilesX) false) exS1.queue) := by
  rw [updExS1_eq]
  unfold recompute
  rw [centerX_neg90]
  rfl

lemma updExS1_sorted : List.Sorted distLE (update (-180) exS1).queue := by
  rw [updExS1_eq]
  exact sorted_queue_recompute _ _

lemma updExS1_perm : ((update (-180) exS1).queue).Perm
    (scan 0 (List.replicate (numTilesX * numTilesX) false) exS1.queue) := by
  rw [updExS1_queue]
  exact List.perm_insertionSort _ _

lemma updExS1_small_entry :
    ∃ t ∈ (update (-180) exS1).queue, t.dist = 1 / 4 := by
  have hc8 : (0 : ℚ) < (numTilesX : ℚ) := by rw [numTilesX_castQ]; norm_num
  have hslot : (0, 4) ∈
      (scan 0 (List.replicate (numTilesX * numTilesX) false) exS1.queue).map slotOf :=
    slotOf_mem_scan_self le_rfl hc8 (by norm_num [numTilesX, targetZoom])
      (by norm_num [numTilesX, targetZoom]) (getD_replicate_false _ _)
  obtain ⟨t, ht, hts⟩ := List.mem_map.1 hslot
  have htx : t.x = 0 := by simpa [slotOf] using congrArg Prod.fst hts
  have hty : t.y = 4 := by simpa [slotOf] using congrArg Prod.snd hts
  refine ⟨t, updExS1_perm.mem_iff.2 ht, ?_⟩
  rcases mem_scan ht with hold | ⟨_, _, hdist, _, _⟩
  · exact absurd (List.mem_map.2 ⟨t, hold, hts⟩) exS1_queue_no04
  · rw [hdist, htx, hty]
    rw [show wrapDist 0 0 = 0 from by
      unfold wrapDist; rw [numTilesX_castQ]; norm_num]
    rw [show distY 4 = 1 / 2 from by
      unfold distY; rw [numTilesX_castQ]; rw [abs_of_nonpos (by norm_num)]; norm_num]
    norm_num

end YandexMap

namespace YandexMap

/-! ### Effect of a failure completion on the pending-fetch multiset -/

lemma updExS1_active (lon : ℚ) : (update lon exS1).activeRequests = 4 := by
  rw [updExS1_eq]; rfl

lemma updExS1_destroyed (lon : ℚ) : (update lon exS1).isDestroyed = false := by
  rw [updExS1_eq]; rfl

lemma completeFailure_inFlight_eq (t : TileRequest) (s : MState)
    (hd : s.isDestroyed = false) :
    (completeFailure t s).inFlight =
      s.inFlight.erase t ++ (drainAux (s.activeRequests - 1) s.queue).1 := by
  unfold completeFailure processQueue
  rw [if_neg (by simp [hd])]

lemma drainAux_three (h0 : TileRequest) (rest : List TileRequest) :
    drainAux 3 (h0 :: rest) = ([h0], rest) := by
  have h4 : drainAux (3 + 1) rest = ([], rest) := drainAux_at_cap rest
  simp only [drainAux, h4]
  norm_num [MAX_CONCURRENT_REQUESTS]

lemma erase_inFlight4 :
    ([TileRequest.mk 0 4 (1/4), TileRequest.mk 0 5 (1/4), TileRequest.mk 0 3 (3/4),
      TileRequest.mk 0 6 (3/4)] : List TileRequest).erase (TileRequest.mk 0 6 (3/4)) =
      [TileRequest.mk 0 4 (1/4), TileRequest.mk 0 5 (1/4), TileRequest.mk 0 3 (3/4)] := by
  norm_num [List.erase_cons]

lemma dup_dispatch_slots :
    ∃ y0 : ℕ, (y0 = 4 ∨ y0 = 5) ∧
      iflSlots (completeFailure (TileRequest.mk 0 6 (3/4)) (update (-180) exS1)) =
        [(0, 4), (0, 5), (0, 3), (0, y0)] := by
  obtain ⟨t0, ht0q, ht0d⟩ := updExS1_small_entry
  cases hq : (update (-180) exS1).queue with
  | nil => rw [hq] at ht0q; cases ht0q
  | cons h0 rest =>
    have hIF := completeFailure_inFlight_eq (TileRequest.mk 0 6 (3/4))
      (update (-180) exS1) (updExS1_destroyed _)
    rw [updExS1_inFlight, exS1_inFlight, updExS1_active, hq, erase_inFlight4] at hIF
    rw [show (4 : ℕ) - 1 = 3 from rfl, drainAux_three] at hIF
    -- identify the slot of the dispatched head h0
    have hh0q : h0 ∈ (update (-180) exS1).queue := by
      rw [hq]; exact List.mem_cons_self _ _
    have hh0min : h0.dist ≤ 1 / 4 := by
      rw [hq] at ht0q
      rcases List.mem_cons.1 ht0q with he | hr
      · rw [he] at ht0d
        exact le_of_eq ht0d
      · have hsorted := updExS1_sorted
        rw [hq] at hsorted
        have h2 : h0.dist ≤ t0.dist := List.rel_of_sorted_cons hsorted t0 hr
        exact h2.trans (le_of_eq ht0d)
    have hh0scan : h0 ∈
        scan 0 (List.replicate (numTilesX * numTilesX) false) exS1.queue :=
      updExS1_perm.mem_iff.1 hh0q
    rcases mem_scan hh0scan with hold | ⟨hbx, _, hdist, _, _⟩
    · have := exS1_queue_dist_lb h0 hold
      linarith
    · have hsd : wrapDist 0 h0.x + distY h0.y * 0.5 ≤ 1 / 4 := by
        rw [← hdist]; exact hh0min
      obtain ⟨hx0, hy45⟩ := small_dist_slot hbx hsd
      refine ⟨h0.y, hy45, ?_⟩
      rw [iflSlots, hIF]
      simp [slotOf, hx0]

end YandexMap
namespace YandexMap

/-! ### The queue and in-flight list produced by a drain, in general -/

lemma completeFailure_isDestroyed (t : TileRequest) (s : MState) :
    (completeFailure t s).isDestroyed = s.isDestroyed := by
  unfold completeFailure
  rw [processQueue_isDestroyed]

lemma processQueue_queue (s : MState) (hd : s.isDestroyed = false) :
    (processQueue s).queue = (drainAux s.activeRequests s.queue).2 := by
  unfold processQueue
  rw [if_neg (by simp [hd])]

lemma processQueue_inFlight (s : MState) (hd : s.isDestroyed = false) :
    (processQueue s).inFlight = s.inFlight ++ (drainAux s.activeRequests s.queue).1 := by
  unfold processQueue
  rw [if_neg (by simp [hd])]

lemma update_queue_eq (lon : ℚ) (s : MState) (hd : s.isDestroyed = false) :
    (update lon s).queue = (drainAux s.activeRequests (recompute lon s).queue).2 := by
  unfold update
  rw [if_neg (by simp [hd])]
  rw [processQueue_queue _ (by rw [recompute_isDestroyed]; exact hd)]
  rw [recompute_activeRequests]

lemma update_inFlight_eq (lon : ℚ) (s : MState) (hd : s.isDestroyed = false) :
    (update lon s).inFlight =
      s.inFlight ++ (drainAux s.activeRequests (recompute lon s).queue).1 := by
  unfold update
  rw [if_neg (by simp [hd])]
  rw [processQueue_inFlight _ (by rw [recompute_isDestroyed]; exact hd)]
  rw [recompute_activeRequests, recompute_inFlight]

lemma update_sorted (lon : ℚ) (s : MState) (hd : s.isDestroyed = false) :
    List.Sorted distLE (update lon s).queue := by
  rw [update_queue_eq lon s hd]
  exact List.Pairwise.sublist (drainAux_rest_sublist _ _) (sorted_queue_recompute lon s)

lemma recompute_mem_queue {lon : ℚ} {s : MState} {t : TileRequest}
    (ht : t ∈ (recompute lon s).queue) :
    t ∈ s.queue ∨
      (t.x < numTilesX ∧ t.y < numTilesX ∧
        t.dist = wrapDist (centerXOf lon) t.x + distY t.y * 0.5 ∧
        s.tilesLoaded.getD (t.y * numTilesX + t.x) false = false ∧
        wrapDist (centerXOf lon) t.x < (numTilesX : ℚ) / 2 + 1) :=
  mem_scan ((perm_queue_recompute lon s).mem_iff.1 ht)

lemma update_mem_queue {lon : ℚ} {s : MState} {t : TileRequest}
    (ht : t ∈ (update lon s).queue) :
    t ∈ s.queue ∨
      (t.x < numTilesX ∧ t.y < numTilesX ∧
        t.dist = wrapDist (centerXOf lon) t.x + distY t.y * 0.5 ∧
        s.tilesLoaded.getD (t.y * numTilesX + t.x) false = false ∧
        wrapDist (centerXOf lon) t.x < (numTilesX : ℚ) / 2 + 1) := by
  by_cases hd : s.isDestroyed = true
  · left
    unfold update at ht
    rw [if_pos hd] at ht
    exact ht
  · have hd' : s.isDestroyed = false := by simpa using hd
    rw [update_queue_eq lon s hd'] at ht
    exact recompute_mem_queue ((drainAux_rest_sublist _ _).subset ht)

lemma update_covers {lon : ℚ} {s : MState} (hd : s.isDestroyed = false)
    {x y : ℕ} (hx : x < numTilesX) (hy : y < numTilesX)
    (hl : s.tilesLoaded.getD (y * numTilesX + x) false = false) :
    (x, y) ∈ qslots (update lon s) ∨ (x, y) ∈ iflSlots (update lon s) := by
  have hscan : (x, y) ∈ (scan (centerXOf lon) s.tilesLoaded s.queue).map slotOf :=
    slotOf_mem_scan_self (centerXOf_nonneg lon) (centerXOf_lt lon) hx hy hl
  have hsorted : (x, y) ∈ ((recompute lon s).queue).map slotOf :=
    ((perm_queue_recompute lon s).map slotOf).mem_iff.2 hscan
  have happ := drainAux_append s.activeRequests (recompute lon s).queue
  rw [← happ, List.map_append] at hsorted
  rcases List.mem_append.1 hsorted with hin | hin
  · right
    unfold iflSlots
    rw [update_inFlight_eq lon s hd, List.map_append]
    exact List.mem_append_right _ hin
  · left
    unfold qslots
    rw [update_queue_eq lon s hd]
    exact hin

end YandexMap

namespace YandexMap

/-! ### Stale priorities surviving the second update -/

lemma priority90_40 : priorityFormula 2 4 0 = 17 / 4 := by
  unfold priorityFormula distY
  rw [numTilesX_castQ]
  norm_num [abs_of_nonneg, abs_of_nonpos, min_def]

lemma updExS1_mem40_90 : TileRequest.mk 4 0 (25/4) ∈ (update (-90) exS1).queue := by
  rw [updExS1_queue90]
  exact (List.perm_insertionSort distLE _).mem_iff.2 (scan_mem_of_mem exS1_queue_mem40)

lemma updExS1_slot04_queue : (0, 4) ∈ qslots (update (-90) exS1) := by
  unfold qslots
  rw [updExS1_queue90]
  have h : (0, 4) ∈
      (scan 2 (List.replicate (numTilesX * numTilesX) false) exS1.queue).map slotOf :=
    slotOf_mem_scan_self (by norm_num) (by rw [numTilesX_castQ]; norm_num)
      (by norm_num [numTilesX, targetZoom]) (by norm_num [numTilesX, targetZoom])
      (getD_replicate_false _ _)
  exact ((List.perm_insertionSort distLE _).map slotOf).mem_iff.2 h

lemma updExS1_slot04_inflight : (0, 4) ∈ iflSlots (update (-90) exS1) := by
  unfold iflSlots
  rw [updExS1_inFlight, exS1_inFlight]
  simp [slotOf]

/-! ### Counting pending fetches per slot -/

lemma countSlot_append (l₁ l₂ : List TileRequest) (p : ℕ × ℕ) :
    countSlot (l₁ ++ l₂) p = countSlot l₁ p + countSlot l₂ p := by
  simp [countSlot]

lemma countSlot_erase_self {l : List TileRequest} {t : TileRequest} (h : t ∈ l) :
    countSlot (l.erase t) (slotOf t) = countSlot l (slotOf t) - 1 := by
  have hperm := List.perm_cons_erase h
  unfold countSlot
  rw [hperm.countP_eq, List.countP_cons]
  simp [slotOf]

lemma countSlot_eq_zero {l : List TileRequest} {p : ℕ × ℕ}
    (h : ∀ u ∈ l, slotOf u ≠ p) : countSlot l p = 0 := by
  unfold countSlot
  rw [List.countP_eq_zero]
  intro u hu hc
  simp only [Bool.and_eq_true, beq_iff_eq] at hc
  exact h u hu (by simp [slotOf, hc.1, hc.2])

/-! ### The base layer never touches the scheduler state -/

lemma baseTileSuccess_frame (x y : ℕ) (s : MState) :
    (baseTileSuccess x y s).tilesLoaded = s.tilesLoaded ∧
    (baseTileSuccess x y s).queue = s.queue ∧
    (baseTileSuccess x y s).inFlight = s.inFlight ∧
    (baseTileSuccess x y s).activeRequests = s.activeRequests ∧
    (baseTileSuccess x y s).isDestroyed = s.isDestroyed ∧
    ∃ ops, (baseTileSuccess x y s).buffer = s.buffer ++ ops := by
  unfold baseTileSuccess
  by_cases hd : s.isDestroyed = true
  · rw [if_pos hd]
    exact ⟨rfl, rfl, rfl, rfl, rfl, [], by simp⟩
  · rw [if_neg hd]
    exact ⟨rfl, rfl, rfl, rfl, rfl, [baseDrawOp x y], rfl⟩

/-! ### The first recomputation, as one closed list -/

lemma recompute_init_queue : (recompute (-180) initState).queue =
    [TileRequest.mk 0 4 (1/4), TileRequest.mk 0 5 (1/4), TileRequest.mk 0 3 (3/4), TileRequest.mk 0 6 (3/4), TileRequest.mk 0 2 (5/4), TileRequest.mk 1 4 (5/4), TileRequest.mk 7 4 (5/4), TileRequest.mk 1 5 (5/4), TileRequest.mk 7 5 (5/4), TileRequest.mk 0 7 (5/4), TileRequest.mk 0 1 (7/4), TileRequest.mk 1 3 (7/4), TileRequest.mk 7 3 (7/4), TileRequest.mk 1 6 (7/4), TileRequest.mk 7 6 (7/4), TileRequest.mk 0 0 (9/4), TileRequest.mk 1 2 (9/4), TileRequest.mk 7 2 (9/4), TileRequest.mk 2 4 (9/4), TileRequest.mk 6 4 (9/4), TileRequest.mk 2 5 (9/4), TileRequest.mk 6 5 (9/4), TileRequest.mk 1 7 (9/4), TileRequest.mk 7 7 (9/4), TileRequest.mk 1 1 (11/4), TileRequest.mk 7 1 (11/4), TileRequest.mk 2 3 (11/4), TileRequest.mk 6 3 (11/4), TileRequest.mk 2 6 (11/4), TileRequest.mk 6 6 (11/4), TileRequest.mk 1 0 (13/4), TileRequest.mk 7 0 (13/4), TileRequest.mk 2 2 (13/4), TileRequest.mk 6 2 (13/4), TileRequest.mk 3 4 (13/4), TileRequest.mk 5 4 (13/4), TileRequest.mk 3 5 (13/4), TileRequest.mk 5 5 (13/4), TileRequest.mk 2 7 (13/4), TileRequest.mk 6 7 (13/4), TileRequest.mk 2 1 (15/4), TileRequest.mk 6 1 (15/4), TileRequest.mk 3 3 (15/4), TileRequest.mk 5 3 (15/4), TileRequest.mk 3 6 (15/4), TileRequest.mk 5 6 (15/4), TileRequest.mk 2 0 (17/4), TileRequest.mk 6 0 (17/4), TileRequest.mk 3 2 (17/4), TileRequest.mk 5 2 (17/4), TileRequest.mk 4 4 (17/4), TileRequest.mk 4 5 (17/4), TileRequest.mk 3 7 (17/4), TileRequest.mk 5 7 (17/4), TileRequest.mk 3 1 (19/4), TileRequest.mk 5 1 (19/4), TileRequest.mk 4 3 (19/4), TileRequest.mk 4 6 (19/4), TileRequest.mk 3 0 (21/4), TileRequest.mk 5 0 (21/4), TileRequest.mk 4 2 (21/4), TileRequest.mk 4 7 (21/4), TileRequest.mk 4 1 (23/4), TileRequest.mk 4 0 (25/4)] := by
  show List.insertionSort distLE
      (scan (centerXOf (-180)) initState.tilesLoaded initState.queue) = _
  rw [centerX_neg180]
  have h1 : scan 0 initState.tilesLoaded initState.queue =
      scan 0 (List.replicate (numTilesX * numTilesX) false) [] := rfl
  rw [h1, scanA_eq, sortA_eq]

end YandexMap
namespace YandexMap

/-! ### The claims -/

/-- C1 counterexample: the code tracks in-flight fetches only as a count, so
`update` re-enqueues slots whose fetch is still pending and a later drain
dispatches such a slot a second time.  Concretely, the state reached by
`update (-180)` twice from the initial state followed by the failure
completion of tile `(0, 6)` holds two simultaneous pending fetches for one
slot: its in-flight slot list is not duplicate-free. -/
theorem C1_no_duplicate_dispatch_cex :
    Reachable (completeFailure (TileRequest.mk 0 6 (3/4)) (update (-180) exS1)) ∧
    ¬ (iflSlots (completeFailure (TileRequest.mk 0 6 (3/4))
        (update (-180) exS1))).Nodup := by
  constructor
  · exact (reach_exS1.tail (Step.doUpdate (-180) exS1)).tail
      (Step.doFailure (TileRequest.mk 0 6 (3/4)) _
        (by rw [updExS1_inFlight, exS1_inFlight]; simp))
  · obtain ⟨y0, hy0, hIF⟩ := dup_dispatch_slots
    rw [hIF]
    rcases hy0 with rfl | rfl <;> decide

/-- C1 (amended): what the code does guarantee is uniqueness inside the
pending queue itself: in every reachable state the queue holds at most one
entry per slot, and consequently one drain never dispatches a slot while
leaving another entry for the same slot behind in the queue. -/
theorem C1_no_duplicate_dispatch_amended (s : MState) (h : Reachable s) :
    (qslots s).Nodup ∧
    ∀ t, t ∈ (drainAux s.activeRequests s.queue).1 →
      slotOf t ∉ (drainAux s.activeRequests s.queue).2.map slotOf := by
  have hnd : (qslots s).Nodup := (reachable_inv h).2.2.2
  refine ⟨hnd, fun t htd hmem => ?_⟩
  have happ := drainAux_append s.activeRequests s.queue
  have hnd2 : ((drainAux s.activeRequests s.queue).1.map slotOf ++
      (drainAux s.activeRequests s.queue).2.map slotOf).Nodup := by
    rw [← List.map_append, happ]
    exact hnd
  exact (List.nodup_append.1 hnd2).2.2 (List.mem_map_of_mem slotOf htd) hmem

theorem C1_no_duplicate_dispatch_amended_witness : (qslots exS1).Nodup :=
  (C1_no_duplicate_dispatch_amended exS1 reach_exS1).1

/-- C2: along any sequence of scheduler events, a slot whose load state is
`true` stays `true`, and `getProgress` never decreases. -/
theorem C2_monotonic_progress (s s' : MState)
    (h : Relation.ReflTransGen Step s s') :
    (∀ i, s.tilesLoaded.getD i false = true → s'.tilesLoaded.getD i false = true) ∧
    getProgress s ≤ getProgress s' :=
  ⟨(steps_loaded_mono h).2.1, steps_progress_mono h⟩

theorem C2_monotonic_progress_witness :
    getProgress initState ≤ getProgress (destroy initState) :=
  (C2_monotonic_progress initState (destroy initState)
    (Relation.ReflTransGen.single (Step.doDestroy initState))).2

/-- C3: in every reachable state the number of in-flight fetches equals
`activeRequests` and never exceeds `MAX_CONCURRENT_REQUESTS`. -/
theorem C3_concurrency_bound (s : MState) (h : Reachable s) :
    s.activeRequests ≤ MAX_CONCURRENT_REQUESTS ∧
    s.activeRequests = s.inFlight.length :=
  ⟨(reachable_inv h).2.1, (reachable_inv h).1⟩

theorem C3_concurrency_bound_witness :
    exS1.activeRequests ≤ MAX_CONCURRENT_REQUESTS ∧
    exS1.activeRequests = exS1.inFlight.length :=
  C3_concurrency_bound exS1 reach_exS1

/-- C4: every entry of the queue produced by `update` was either already
queued, or was admitted by the scan, in which case its wrapped horizontal
distance is strictly below `numTilesX / 2 + 1`; in particular the boundary
value itself is excluded. -/
theorem C4_admission_filter (lon : ℚ) (s : MState) (t : TileRequest)
    (h : t ∈ (update lon s).queue) :
    t ∈ s.queue ∨
      (wrapDist (centerXOf lon) t.x < (numTilesX : ℚ) / 2 + 1 ∧
        wrapDist (centerXOf lon) t.x ≠ (numTilesX : ℚ) / 2 + 1) := by
  rcases update_mem_queue h with hold | ⟨_, _, _, _, hadm⟩
  · exact Or.inl hold
  · exact Or.inr ⟨hadm, ne_of_lt hadm⟩

theorem C4_admission_filter_witness :
    TileRequest.mk 0 2 (5/4) ∈ initState.queue ∨
      (wrapDist (centerXOf (-180)) (TileRequest.mk 0 2 (5/4)).x <
          (numTilesX : ℚ) / 2 + 1 ∧
        wrapDist (centerXOf (-180)) (TileRequest.mk 0 2 (5/4)).x ≠
          (numTilesX : ℚ) / 2 + 1) := by
  have hmem : TileRequest.mk 0 2 (5/4) ∈ (update (-180) initState).queue := by
    rw [update1_eq]
    simp [exS1]
  exact C4_admission_filter (-180) initState _ hmem

/-- C5 counterexample: the queue is not rebuilt with fresh priorities.  After
`update (-90)` on the reachable state `exS1`, the stale entry for slot
`(4, 0)` keeps the priority `25/4` computed for the previous viewpoint, while
the distance formula at the new center `centerXOf (-90) = 2` gives `17/4`;
moreover slot `(0, 4)` is simultaneously in flight and queued, so the queue
is not confined to slots that are neither loaded nor in flight. -/
theorem C5_queue_rebuild_cex :
    Reachable (update (-90) exS1) ∧
    TileRequest.mk 4 0 (25/4) ∈ (update (-90) exS1).queue ∧
    priorityFormula (centerXOf (-90)) 4 0 = 17 / 4 ∧
    (25 : ℚ) / 4 ≠ 17 / 4 ∧
    (0, 4) ∈ qslots (update (-90) exS1) ∧
    (0, 4) ∈ iflSlots (update (-90) exS1) := by
  refine ⟨reach_exS1.tail (Step.doUpdate (-90) exS1), updExS1_mem40_90, ?_,
    by norm_num, updExS1_slot04_queue, updExS1_slot04_inflight⟩
  rw [centerX_neg90]
  exact priority90_40

/-- C5 (amended): after `update` on a reachable non-destroyed state the queue
still holds at most one entry per slot, every entry either survives from the
previous queue (with its old priority) or carries the priority computed from
the current viewpoint, and every unloaded slot of the grid is accounted for:
it is queued or in flight. -/
theorem C5_queue_rebuild_amended (lon : ℚ) (s : MState) (h : Reachable s)
    (hd : s.isDestroyed = false) :
    (qslots (update lon s)).Nodup ∧
    (∀ t ∈ (update lon s).queue,
      t ∈ s.queue ∨ t.dist = wrapDist (centerXOf lon) t.x + distY t.y * 0.5) ∧
    ∀ x y : ℕ, x < numTilesX → y < numTilesX →
      s.tilesLoaded.getD (y * numTilesX + x) false = false →
      (x, y) ∈ qslots (update lon s) ∨ (x, y) ∈ iflSlots (update lon s) := by
  refine ⟨?_, ?_, fun x y hx hy hl => update_covers hd hx hy hl⟩
  · exact (reachable_inv (h.tail (Step.doUpdate lon s))).2.2.2
  · intro t ht
    rcases update_mem_queue ht with hold | ⟨_, _, hf, _, _⟩
    · exact Or.inl hold
    · exact Or.inr hf

theorem C5_queue_rebuild_amended_witness :
    (qslots (update (-180) initState)).Nodup :=
  (C5_queue_rebuild_amended (-180) initState Relation.ReflTransGen.refl rfl).1

/-- C6: every newly admitted queue entry carries the priority
`min |x - centerX| (numTilesX - |x - centerX|) + 0.5 * |y - numTilesX/2 - 0.5|`,
the queue is sorted by ascending priority after the recomputation and after
the whole `update`, and concretely for `centerX = 0` on the 8×8 grid the
entry of column 0 precedes the entry of column 1, which precedes the entry of
column 4, for every row. -/
theorem C6_priority_order (lon : ℚ) (s : MState) (hd : s.isDestroyed = false) :
    (∀ t ∈ (recompute lon s).queue,
      t ∈ s.queue ∨ t.dist = priorityFormula (centerXOf lon) t.x t.y) ∧
    List.Sorted distLE (recompute lon s).queue ∧
    List.Sorted distLE (update lon s).queue ∧
    ∀ y : ℕ, y < numTilesX →
      (((recompute (-180) initState).queue.map slotOf).indexOf (0, y) <
          ((recompute (-180) initState).queue.map slotOf).indexOf (1, y) ∧
        ((recompute (-180) initState).queue.map slotOf).indexOf (1, y) <
          ((recompute (-180) initState).queue.map slotOf).indexOf (4, y)) := by
  refine ⟨?_, sorted_queue_recompute lon s, update_sorted lon s hd, ?_⟩
  · intro t ht
    rcases recompute_mem_queue ht with hold | ⟨hx, _, hf, _, _⟩
    · exact Or.inl hold
    · right
      rw [hf, wrapDist_eq_min (centerXOf_nonneg lon) (centerXOf_lt lon) hx]
      unfold priorityFormula
      ring
  · simp only [recompute_init_queue]
    decide

theorem C6_priority_order_witness :
    List.Sorted distLE (update (-180) initState).queue :=
  (C6_priority_order (-180) initState rfl).2.2.1

/-- C7: a failure completion of an in-flight fetch leaves the load-state
table, the buffer and the notification count unchanged, removes exactly one
pending fetch for the failed slot without issuing an immediate retry (when no
queue entry for the slot exists, none is dispatched), and the slot stays
eligible: any later `update` puts it back in the queue or in flight. -/
theorem C7_failure_nonfatal (s : MState) (t : TileRequest)
    (hmem : t ∈ s.inFlight) (hq : slotOf t ∉ qslots s)
    (hx : t.x < numTilesX) (hy : t.y < numTilesX)
    (hl : s.tilesLoaded.getD (t.y * numTilesX + t.x) false = false)
    (hd : s.isDestroyed = false) :
    (completeFailure t s).tilesLoaded = s.tilesLoaded ∧
    (completeFailure t s).buffer = s.buffer ∧
    (completeFailure t s).notifications = s.notifications ∧
    countSlot (completeFailure t s).inFlight (slotOf t) =
      countSlot s.inFlight (slotOf t) - 1 ∧
    ∀ lon : ℚ, slotOf t ∈ qslots (update lon (completeFailure t s)) ∨
      slotOf t ∈ iflSlots (update lon (completeFailure t s)) := by
  refine ⟨completeFailure_tilesLoaded t s, completeFailure_buffer t s,
    completeFailure_notifications t s, ?_, ?_⟩
  · rw [completeFailure_inFlight_eq t s hd, countSlot_append]
    have hz : countSlot (drainAux (s.activeRequests - 1) s.queue).1 (slotOf t) = 0 := by
      apply countSlot_eq_zero
      intro u hu heq
      exact hq (heq ▸ List.mem_map_of_mem slotOf (drainAux_dispatched_mem hu))
    rw [hz, countSlot_erase_self hmem]
    omega
  · intro lon
    have hd' : (completeFailure t s).isDestroyed = false := by
      rw [completeFailure_isDestroyed]
      exact hd
    have hl' : (completeFailure t s).tilesLoaded.getD (t.y * numTilesX + t.x)
        false = false := by
      rw [completeFailure_tilesLoaded]
      exact hl
    exact update_covers hd' hx hy hl'

theorem C7_failure_nonfatal_witness :
    countSlot (completeFailure (TileRequest.mk 0 6 (3/4)) exS1).inFlight
        (slotOf (TileRequest.mk 0 6 (3/4))) =
      countSlot exS1.inFlight (slotOf (TileRequest.mk 0 6 (3/4))) - 1 :=
  (C7_failure_nonfatal exS1 (TileRequest.mk 0 6 (3/4)) (by simp [exS1])
    (by decide) (by decide) (by decide) (by decide) rfl).2.2.2.1

/-- C8: `destroy` is idempotent, and once the destroyed flag is set any fetch
completion — success or failure — leaves the load-state table, the buffer and
the notification count untouched. -/
theorem C8_destroy_inert (s : MState) (t : TileRequest)
    (hd : s.isDestroyed = true) :
    destroy (destroy s) = destroy s ∧
    (completeSuccess t s).tilesLoaded = s.tilesLoaded ∧
    (completeSuccess t s).buffer = s.buffer ∧
    (completeSuccess t s).notifications = s.notifications ∧
    (completeFailure t s).tilesLoaded = s.tilesLoaded ∧
    (completeFailure t s).buffer = s.buffer ∧
    (completeFailure t s).notifications = s.notifications := by
  refine ⟨rfl, ?_, ?_, ?_, completeFailure_tilesLoaded t s,
    completeFailure_buffer t s, completeFailure_notifications t s⟩
  all_goals simp [completeSuccess, processQueue, hd]

theorem C8_destroy_inert_witness :
    (completeSuccess (TileRequest.mk 0 0 0) (destroy initState)).buffer =
      (destroy initState).buffer :=
  (C8_destroy_inert (destroy initState) (TileRequest.mk 0 0 0) rfl).2.2.1

/-- C9: `tileToGeo` returns exactly the tile-center formulas of the source,
and for valid inputs the longitude lies in `[-180, 180)` while the latitude
lies within `[-85.06, 85.06]` (written `4253 / 50`). -/
theorem C9_tileToGeo_range (x y z : ℕ) (hx : x < 2 ^ z) (hy : y < 2 ^ z) :
    tileToGeo x y z =
      { lon := ((x : ℝ) + 0.5) / 2 ^ z * 360 - 180
        lat := Real.arctan (Real.sinh (Real.pi * (1 - 2 * ((y : ℝ) + 0.5) / 2 ^ z)))
          * 180 / Real.pi } ∧
    -180 ≤ (tileToGeo x y z).lon ∧ (tileToGeo x y z).lon < 180 ∧
    -(4253 / 50 : ℝ) ≤ (tileToGeo x y z).lat ∧ (tileToGeo x y z).lat ≤ 4253 / 50 := by
  have hn : (0 : ℝ) < 2 ^ z := by positivity
  have hxr : ((x : ℝ) + 0.5) < 2 ^ z := by
    have h2 : ((x + 1 : ℕ) : ℝ) ≤ ((2 ^ z : ℕ) : ℝ) := by
      exact_mod_cast Nat.succ_le_of_lt hx
    push_cast at h2
    linarith
  have hyr : ((y : ℝ) + 0.5) < 2 ^ z := by
    have h2 : ((y + 1 : ℕ) : ℝ) ≤ ((2 ^ z : ℕ) : ℝ) := by
      exact_mod_cast Nat.succ_le_of_lt hy
    push_cast at h2
    linarith
  have hx0 : (0 : ℝ) ≤ (x : ℝ) + 0.5 := by positivity
  have hub : Real.arctan (Real.sinh (Real.pi * (1 - 2 * ((y : ℝ) + 0.5) / 2 ^ z))) ≤
      4253 / 9000 * Real.pi := by
    have ht : Real.pi * (1 - 2 * ((y : ℝ) + 0.5) / 2 ^ z) ≤ Real.pi := by
      have h1 : (0 : ℝ) ≤ 2 * ((y : ℝ) + 0.5) / 2 ^ z := by positivity
      nlinarith [Real.pi_pos]
    exact le_trans (Real.arctan_strictMono.monotone (Real.sinh_le_sinh.2 ht))
      arctan_sinh_pi_le
  have hlb : -(4253 / 9000 * Real.pi) ≤
      Real.arctan (Real.sinh (Real.pi * (1 - 2 * ((y : ℝ) + 0.5) / 2 ^ z))) := by
    have ht : -Real.pi ≤ Real.pi * (1 - 2 * ((y : ℝ) + 0.5) / 2 ^ z) := by
      have h1 : 2 * ((y : ℝ) + 0.5) / 2 ^ z ≤ 2 := by
        rw [div_le_iff₀ hn]
        nlinarith
      nlinarith [Real.pi_pos]
    have h2 : Real.arctan (Real.sinh (-Real.pi)) ≤
        Real.arctan (Real.sinh (Real.pi * (1 - 2 * ((y : ℝ) + 0.5) / 2 ^ z))) :=
      Real.arctan_strictMono.monotone (Real.sinh_le_sinh.2 ht)
    rw [Real.sinh_neg, Real.arctan_neg] at h2
    linarith [arctan_sinh_pi_le]
  refine ⟨rfl, ?_, ?_, ?_, ?_⟩
  · show -180 ≤ ((x : ℝ) + 0.5) / 2 ^ z * 360 - 180
    have h0 : (0 : ℝ) ≤ ((x : ℝ) + 0.5) / 2 ^ z := div_nonneg hx0 hn.le
    nlinarith
  · show ((x : ℝ) + 0.5) / 2 ^ z * 360 - 180 < 180
    have h1 : ((x : ℝ) + 0.5) / 2 ^ z < 1 := (div_lt_one hn).2 hxr
    nlinarith
  · show -(4253 / 50 : ℝ) ≤
      Real.arctan (Real.sinh (Real.pi * (1 - 2 * ((y : ℝ) + 0.5) / 2 ^ z)))
        * 180 / Real.pi
    rw [le_div_iff₀ Real.pi_pos]
    linarith
  · show Real.arctan (Real.sinh (Real.pi * (1 - 2 * ((y : ℝ) + 0.5) / 2 ^ z)))
        * 180 / Real.pi ≤ 4253 / 50
    rw [div_le_iff₀ Real.pi_pos]
    linarith

theorem C9_tileToGeo_range_witness :
    -180 ≤ (tileToGeo 0 0 0).lon ∧ (tileToGeo 0 0 0).lon < 180 ∧
    -(4253 / 50 : ℝ) ≤ (tileToGeo 0 0 0).lat ∧ (tileToGeo 0 0 0).lat ≤ 4253 / 50 :=
  (C9_tileToGeo_range 0 0 0 (by norm_num) (by norm_num)).2

/-- C10: base-layer completions only append draws to the buffer: for every
sequence of base-tile events, the load-state table, queue, in-flight list,
active-request count and destroyed flag are unchanged, the buffer is extended
and `getProgress` is unaffected. -/
theorem C10_base_layer_frame (evs : List BaseEvent) (s : MState) :
    (applyBase evs s).tilesLoaded = s.tilesLoaded ∧
    (applyBase evs s).queue = s.queue ∧
    (applyBase evs s).inFlight = s.inFlight ∧
    (applyBase evs s).activeRequests = s.activeRequests ∧
    (applyBase evs s).isDestroyed = s.isDestroyed ∧
    (∃ ops, (applyBase evs s).buffer = s.buffer ++ ops) ∧
    getProgress (applyBase evs s) = getProgress s := by
  induction evs generalizing s with
  | nil => exact ⟨rfl, rfl, rfl, rfl, rfl, ⟨[], by simp [applyBase]⟩, rfl⟩
  | cons e evs ih =>
    cases e with
    | success x y =>
      obtain ⟨h1, h2, h3, h4, h5, ⟨ops0, h6⟩⟩ := baseTileSuccess_frame x y s
      obtain ⟨g1, g2, g3, g4, g5, ⟨ops1, g6⟩, g7⟩ := ih (baseTileSuccess x y s)
      refine ⟨g1.trans h1, g2.trans h2, g3.trans h3, g4.trans h4, g5.trans h5,
        ⟨ops0 ++ ops1, ?_⟩, ?_⟩
      · rw [show applyBase (BaseEvent.success x y :: evs) s =
            applyBase evs (baseTileSuccess x y s) from rfl, g6, h6,
          List.append_assoc]
      · rw [show applyBase (BaseEvent.success x y :: evs) s =
            applyBase evs (baseTileSuccess x y s) from rfl, g7]
        unfold getProgress
        rw [h1]
    | failure => exact ih s

end YandexMap
